import Mathlib

/-!
# ModbusMy slave (STM32): frame reception, validation, dispatch and response

A shallow embedding of `Src/modbus_my.c` and `Inc/modbus_my.h`.

* Bytes and machine words are natural numbers; every place where the C code
  truncates to `uint8_t` / `uint16_t` carries an explicit `% 256` / `% 65536`.
* The file-scope variables `isWaitFirstByte_`, `rxData_`, `txData_` and the
  function-scope static `timeOut` form the explicit `State`.
* Calls into the STM32 HAL (which is not part of the repository) are recorded,
  in program order, as a list of `HalCall`s returned next to the new state.
* Bit-fields are laid out as the ARM EABI compilers used for STM32 do it:
  little-endian, first declared bit-field in the least significant bits.
* `HAL_UART_Transmit_IT` is recorded with the bytes the buffer holds when the
  call is made.
-/

namespace ModbusMy

/-! ## Constants -/

/-- Source: `#define RX_BUF_SIZE 3`. -/
def RX_BUF_SIZE : Nat := 3

/-- Source: `#define RECEPTION_TIME 10`. -/
def RECEPTION_TIME : Nat := 10

/-- Source: `#define DEVICE_ADDRESS 0x01` (modbus_my.h). -/
def DEVICE_ADDRESS : Nat := 0x01

/-- Source: `UART_COMMAND_SEND_DATA = 0x01`. -/
def UART_COMMAND_SEND_DATA : Nat := 0x01
/-- Source: `UART_COMMAND_UPDATE_OUTPUTS = 0x02`. -/
def UART_COMMAND_UPDATE_OUTPUTS : Nat := 0x02
/-- Source: `UART_COMMAND_ERROR_RESET = 0x0F`. -/
def UART_COMMAND_ERROR_RESET : Nat := 0x0F

/-- Source: `ERROR_NONE = 0x00`. -/
def ERROR_NONE : Nat := 0x00
/-- Source: `ERROR_UART_PARITY = 0x01`. -/
def ERROR_UART_PARITY : Nat := 0x01
/-- Source: `ERROR_UART_NOISE = 0x02`. -/
def ERROR_UART_NOISE : Nat := 0x02
/-- Source: `ERROR_UART_FRAME = 0x03`. -/
def ERROR_UART_FRAME : Nat := 0x03
/-- Source: `ERROR_UART_OVERRUN = 0x04`. -/
def ERROR_UART_OVERRUN : Nat := 0x04
/-- Source: `ERROR_UART_DMA_TRANSFER = 0x05`. -/
def ERROR_UART_DMA_TRANSFER : Nat := 0x05
/-- Source: `ERROR_INCORRECT_UART_COMMAND = 0x06`. -/
def ERROR_INCORRECT_UART_COMMAND : Nat := 0x06

/-- The five `HAL_UART_ERROR_*` values the error callback switches on. They are
declared in the HAL headers, which are not among the sources, and are therefore
a parameter of the model. -/
structure HalUartError where
  PE : Nat
  NE : Nat
  FE : Nat
  ORE : Nat
  DMA : Nat
  deriving DecidableEq, Repr

/-! ## Calls into the HAL -/

/-- One call from `modbus_my.c` into the HAL. All UART calls are made on
`huart1`. -/
inductive HalCall where
  /-- Source: `HAL_UART_Receive_IT(&huart1, rxData_.rxBuf + offset, size)`. -/
  | UART_Receive_IT (offset size : Nat)
  /-- Source: `HAL_UART_Transmit_IT(&huart1, pData, Size)`: the `Size` bytes found at
  `pData` when the call is made. -/
  | UART_Transmit_IT (pData : List Nat)
  /-- Source: `HAL_UART_AbortReceive_IT(&huart1)`. -/
  | UART_AbortReceive_IT
  /-- Source: `HAL_GPIO_WritePin(LEDn_GPIO_Port, LEDn_Pin, pinState)`, `led = n`. -/
  | GPIO_WritePin (led : Nat) (pinState : Bool)
  /-- Source: `__HAL_UART_DISABLE_IT(huart, UART_IT_IDLE)`. -/
  | UART_DISABLE_IT_IDLE
  /-- Source: `HAL_UART_DMAStop(huart)`. -/
  | UART_DMAStop
  /-- Source: `__HAL_UART_CLEAR_PEFLAG(huart)`. -/
  | UART_CLEAR_PEFLAG
  /-- Source: `__HAL_UART_CLEAR_NEFLAG(huart)`. -/
  | UART_CLEAR_NEFLAG
  /-- Source: `__HAL_UART_CLEAR_FEFLAG(huart)`. -/
  | UART_CLEAR_FEFLAG
  /-- Source: `__HAL_UART_CLEAR_OREFLAG(huart)`. -/
  | UART_CLEAR_OREFLAG
  /-- Source: `huart->ErrorCode = HAL_UART_ERROR_NONE`. -/
  | UART_ErrorCode_NONE
  deriving DecidableEq, Repr

/-- Is the call a `HAL_UART_Transmit_IT`? -/
def HalCall.isTransmit : HalCall → Bool
  | .UART_Transmit_IT _ => true
  | _ => false

/-- Is the call a `HAL_GPIO_WritePin`? -/
def HalCall.isWritePin : HalCall → Bool
  | .GPIO_WritePin _ _ => true
  | _ => false

/-! ## Data model -/

/-- The response record `txData_`. -/
structure TxData where
  /-- Source: `int16_t temperature`. -/
  temperature : Int
  /-- Source: `uint16_t voltage`. -/
  voltage : Nat
  /-- Source: `bool led1State : 1`. -/
  led1State : Bool
  /-- Source: `bool led2State : 1`. -/
  led2State : Bool
  /-- Source: `bool led3State : 1`. -/
  led3State : Bool
  /-- Source: `bool led4State : 1`. -/
  led4State : Bool
  /-- Source: `bool button1State : 1`. -/
  button1State : Bool
  /-- Source: `uint8_t reserve : 3`. -/
  reserve : Nat
  /-- Source: `uint8_t error`. -/
  error : Nat
  /-- Source: `uint16_t crc`. -/
  crc : Nat
  deriving DecidableEq, Repr

/-- The static variables of `modbus_my.c`. -/
structure State where
  /-- Source: `static bool isWaitFirstByte_`. -/
  isWaitFirstByte_ : Bool
  /-- Source: `rxData_.rxBuf`, the byte view of the request union. -/
  rxBuf : List Nat
  /-- Source: `txData_`. -/
  txData_ : TxData
  /-- Source: `static uint8_t timeOut` of `checkTimeOutReception`. -/
  timeOut : Nat
  deriving DecidableEq, Repr

/-- The values the C static initialisers give: `isWaitFirstByte_ = true`,
everything else zero. -/
def initState : State :=
  { isWaitFirstByte_ := true
    rxBuf := [0, 0, 0]
    txData_ :=
      { temperature := 0, voltage := 0, led1State := false, led2State := false,
        led3State := false, led4State := false, button1State := false,
        reserve := 0, error := 0, crc := 0 }
    timeOut := 0 }

/-! ### The request union `rxData_`: bit-field view of `rxBuf` -/

/-- Source: `rxData_.field.address`: bits 0..3 of byte 0. -/
def rxAddress (rxBuf : List Nat) : Nat := rxBuf.getD 0 0 % 16

/-- Source: `rxData_.field.command`: bits 4..7 of byte 0. -/
def rxCommand (rxBuf : List Nat) : Nat := rxBuf.getD 0 0 / 16 % 16

/-- Source: `rxData_.field.isLed1On`: bit 0 of byte 1. -/
def rxIsLed1On (rxBuf : List Nat) : Bool := rxBuf.getD 1 0 % 2 == 1

/-- Source: `rxData_.field.isLed2On`: bit 1 of byte 1. -/
def rxIsLed2On (rxBuf : List Nat) : Bool := rxBuf.getD 1 0 / 2 % 2 == 1

/-- Source: `rxData_.field.isLed3On`: bit 2 of byte 1. -/
def rxIsLed3On (rxBuf : List Nat) : Bool := rxBuf.getD 1 0 / 4 % 2 == 1

/-- Source: `rxData_.field.isLed4On`: bit 3 of byte 1. -/
def rxIsLed4On (rxBuf : List Nat) : Bool := rxBuf.getD 1 0 / 8 % 2 == 1

/-- Source: `rxData_.field.crc`: byte 2. -/
def rxCrc (rxBuf : List Nat) : Nat := rxBuf.getD 2 0

/-! ### The memory image of `txData_` -/

/-- Byte 4 of `txData_`: the five one-bit fields in bits 0..4, `reserve` in
bits 5..7. -/
def txFlagsByte (t : TxData) : Nat :=
  t.led1State.toNat + 2 * t.led2State.toNat + 4 * t.led3State.toNat
    + 8 * t.led4State.toNat + 16 * t.button1State.toNat + 32 * (t.reserve % 8)

/-- Source: `(uint8_t *)&txData_`: the 8 bytes of the record, little-endian. -/
def txBytes (t : TxData) : List Nat :=
  [ (t.temperature % 256).toNat, (t.temperature / 256 % 256).toNat,
    t.voltage % 256, t.voltage / 256 % 256,
    txFlagsByte t,
    t.error % 256,
    t.crc % 256, t.crc / 256 % 256 ]

/-- Source: `sizeof(txData_)`. -/
def sizeofTxData : Nat := 8

/-- Source: `sizeof(txData_.crc)`. -/
def sizeofTxCrc : Nat := 2

/-- Source: `sizeof(rxData_)`. -/
def sizeofRxData : Nat := 3

/-- Source: `sizeof(rxData_.field.crc)`. -/
def sizeofRxCrc : Nat := 1

/-! ## CRC engines -/

/-- One round of the inner `for` loop of `crc8`:
`crc = (crc & 0x80) ? (uint8_t)((crc << 1) ^ 0x31) : (uint8_t)(crc << 1)`. -/
def crc8Round (crc : Nat) : Nat :=
  if crc &&& 0x80 ≠ 0 then ((crc <<< 1) ^^^ 0x31) % 256 else (crc <<< 1) % 256

/-- The body of the `while` loop of `crc8` for one input byte:
`crc ^= *data++;` followed by the eight rounds of the `for` loop. -/
def crc8Byte (crc : Nat) (byte : Nat) : Nat :=
  crc8Round^[8] ((crc ^^^ byte) % 256)

/-- The `while (size-- > 0)` loop of `crc8` over `data[0..size)`. -/
def crc8Loop : Nat → List Nat → Nat
  | crc, [] => crc
  | crc, byte :: rest => crc8Loop (crc8Byte crc byte) rest

/-- Source: `crc8(data, size)`; the list holds `data[0..size)`. -/
def crc8 (data : List Nat) : Nat := crc8Loop 0xFF data

/-- One round of the inner `for` loop of `crc16`:
`crc = (crc & 0x8000) ? (uint16_t)((crc << 1) ^ 0x1021) : (uint16_t)(crc << 1)`. -/
def crc16Round (crc : Nat) : Nat :=
  if crc &&& 0x8000 ≠ 0 then ((crc <<< 1) ^^^ 0x1021) % 65536 else (crc <<< 1) % 65536

/-- The body of the `while` loop of `crc16` for one input byte:
`crc ^= *data++ << 8;` followed by the eight rounds of the `for` loop. -/
def crc16Byte (crc : Nat) (byte : Nat) : Nat :=
  crc16Round^[8] ((crc ^^^ (byte <<< 8)) % 65536)

/-- The `while (size-- > 0)` loop of `crc16` over `data[0..size)`. -/
def crc16Loop : Nat → List Nat → Nat
  | crc, [] => crc
  | crc, byte :: rest => crc16Loop (crc16Byte crc byte) rest

/-- Source: `crc16(data, size)`; the list holds `data[0..size)`. -/
def crc16 (data : List Nat) : Nat := crc16Loop 0xFFFF data

/-! ## Operations -/

/-- Source: `clearBuffer(data, size)`: writes `0x00` to `data[0..size)`. -/
def clearBuffer : List Nat → Nat → List Nat
  | _ :: rest, size + 1 => 0x00 :: clearBuffer rest size
  | data, _ => data

/-- Source: `turnOnLed1(isLedOn)`. -/
def turnOnLed1 (isLedOn : Bool) (t : TxData) : TxData × List HalCall :=
  ({ t with led1State := isLedOn }, [HalCall.GPIO_WritePin 1 (!isLedOn)])

/-- Source: `turnOnLed2(isLedOn)`. -/
def turnOnLed2 (isLedOn : Bool) (t : TxData) : TxData × List HalCall :=
  ({ t with led2State := isLedOn }, [HalCall.GPIO_WritePin 2 (!isLedOn)])

/-- Source: `turnOnLed3(isLedOn)`. -/
def turnOnLed3 (isLedOn : Bool) (t : TxData) : TxData × List HalCall :=
  ({ t with led3State := isLedOn }, [HalCall.GPIO_WritePin 3 (!isLedOn)])

/-- Source: `turnOnLed4(isLedOn)`. -/
def turnOnLed4 (isLedOn : Bool) (t : TxData) : TxData × List HalCall :=
  ({ t with led4State := isLedOn }, [HalCall.GPIO_WritePin 4 (!isLedOn)])

/-- Source: `setTemperature(temperature)`. -/
def setTemperature (temperature : Int) (s : State) : State :=
  { s with txData_ := { s.txData_ with temperature := temperature } }

/-- Source: `setVoltage(voltage)`. -/
def setVoltage (voltage : Nat) (s : State) : State :=
  { s with txData_ := { s.txData_ with voltage := voltage } }

/-- Source: `setButton1State(buttonState)`. -/
def setButton1State (buttonState : Bool) (s : State) : State :=
  { s with txData_ := { s.txData_ with button1State := buttonState } }

/-- Source: `uartStartReceive()`. -/
def uartStartReceive (s : State) : State × List HalCall :=
  ({ s with rxBuf := clearBuffer s.rxBuf RX_BUF_SIZE, isWaitFirstByte_ := true },
   [HalCall.UART_Receive_IT 0 1])

/-- The `switch (rxData_.field.command)` of `HAL_UART_RxCpltCallback`. -/
def dispatch (rxBuf : List Nat) (t : TxData) : TxData × List HalCall :=
  if rxCommand rxBuf = UART_COMMAND_SEND_DATA then
    (t, [])
  else if rxCommand rxBuf = UART_COMMAND_UPDATE_OUTPUTS then
    let r1 := turnOnLed1 (rxIsLed1On rxBuf) t
    let r2 := turnOnLed2 (rxIsLed2On rxBuf) r1.1
    let r3 := turnOnLed3 (rxIsLed3On rxBuf) r2.1
    let r4 := turnOnLed4 (rxIsLed4On rxBuf) r3.1
    (r4.1, r1.2 ++ r2.2 ++ r3.2 ++ r4.2)
  else if rxCommand rxBuf = UART_COMMAND_ERROR_RESET then
    ({ t with error := ERROR_NONE }, [])
  else
    ({ t with error := ERROR_INCORRECT_UART_COMMAND }, [])

/-- Source: `HAL_UART_RxCpltCallback(huart)`; `isHuart1` is `huart == &huart1`. -/
def HAL_UART_RxCpltCallback (isHuart1 : Bool) (s : State) : State × List HalCall :=
  if isHuart1 then
    if s.isWaitFirstByte_ = true then
      ({ s with isWaitFirstByte_ := false },
       [HalCall.UART_Receive_IT 1 (RX_BUF_SIZE - 1)])
    else
      let isAddressCorrect : Bool := rxAddress s.rxBuf == DEVICE_ADDRESS
      let isCrcCorrect : Bool :=
        rxCrc s.rxBuf == crc8 (s.rxBuf.take (sizeofRxData - sizeofRxCrc))
      if isAddressCorrect && isCrcCorrect then
        let d := dispatch s.rxBuf s.txData_
        let t : TxData :=
          { d.1 with crc := crc16 ((txBytes d.1).take (sizeofTxData - sizeofTxCrc)) }
        let r := uartStartReceive { s with txData_ := t }
        (r.1, d.2 ++ [HalCall.UART_Transmit_IT ((txBytes t).take sizeofTxData)] ++ r.2)
      else
        uartStartReceive s
  else
    (s, [])

/-- Source: `checkTimeOutReception()`. -/
def checkTimeOutReception (s : State) : State × List HalCall :=
  if s.isWaitFirstByte_ = true then
    ({ s with timeOut := 0 }, [])
  else
    let timeOut := (s.timeOut + 1) % 256
    if timeOut ≥ RECEPTION_TIME then
      let r := uartStartReceive { s with timeOut := 0 }
      (r.1, HalCall.UART_AbortReceive_IT :: r.2)
    else
      ({ s with timeOut := timeOut }, [])

/-- Source: `HAL_UART_ErrorCallback(huart)`; `isHuart1` is `huart == &huart1` and
`error` is the value returned by `HAL_UART_GetError(huart)`. -/
def HAL_UART_ErrorCallback (hal : HalUartError) (isHuart1 : Bool) (error : Nat)
    (s : State) : State × List HalCall :=
  if isHuart1 then
    let pre := [HalCall.UART_DISABLE_IT_IDLE, HalCall.UART_DMAStop]
    if error = hal.PE then
      ({ s with txData_ := { s.txData_ with error := ERROR_UART_PARITY } },
       pre ++ [HalCall.UART_CLEAR_PEFLAG, HalCall.UART_ErrorCode_NONE])
    else if error = hal.NE then
      ({ s with txData_ := { s.txData_ with error := ERROR_UART_NOISE } },
       pre ++ [HalCall.UART_CLEAR_NEFLAG, HalCall.UART_ErrorCode_NONE])
    else if error = hal.FE then
      ({ s with txData_ := { s.txData_ with error := ERROR_UART_FRAME } },
       pre ++ [HalCall.UART_CLEAR_FEFLAG, HalCall.UART_ErrorCode_NONE])
    else if error = hal.ORE then
      ({ s with txData_ := { s.txData_ with error := ERROR_UART_OVERRUN } },
       pre ++ [HalCall.UART_CLEAR_OREFLAG, HalCall.UART_ErrorCode_NONE])
    else if error = hal.DMA then
      ({ s with txData_ := { s.txData_ with error := ERROR_UART_DMA_TRANSFER } },
       pre ++ [HalCall.UART_ErrorCode_NONE])
    else
      (s, pre)
  else
    (s, [])

/-! ## Reference CRC (written from the specification) -/

/-- The eight bits of a byte, most significant bit first. -/
def byteBitsMsbFirst (byte : Nat) : List Bool :=
  [byte.testBit 7, byte.testBit 6, byte.testBit 5, byte.testBit 4,
   byte.testBit 3, byte.testBit 2, byte.testBit 1, byte.testBit 0]

/-- Reference bit-serial CRC register of `width` bits: shifting one message bit
in. The feedback is the bit leaving the register xor the message bit; on
feedback the generator polynomial `poly` is added to the shifted register. -/
def refCrcBit (width poly reg : Nat) (bit : Bool) : Nat :=
  let shifted := (2 * reg) % 2 ^ width
  if (reg.testBit (width - 1) ^^ bit) then shifted ^^^ poly else shifted

/-- Reference CRC: non-reflected, most significant bit first, register started
at `init`, no final xor. -/
def refCrc (width poly init : Nat) (data : List Nat) : Nat :=
  (data.flatMap byteBitsMsbFirst).foldl (refCrcBit width poly) init

/-- One round of the byte-at-a-time register of `crc8` and `crc16`, for a
register of `w` bits and polynomial `p`; used to relate both to `refCrcBit`. -/
def crcRoundW (w p c : Nat) : Nat :=
  if c.testBit (w - 1) then ((c <<< 1) ^^^ p) % 2 ^ w else (c <<< 1) % 2 ^ w

/-- The `n` top bits of a `w`-bit register, most significant first. -/
def topBits (w : Nat) : Nat → Nat → List Bool
  | 0, _ => []
  | n + 1, x => x.testBit (w - 1) :: topBits w n ((x <<< 1) % 2 ^ w)

/-! ## Events

The handlers run to completion, one at a time. Between two receive-complete
events the link layer stores the bytes it received in the window of `rxBuf` that
the last `HAL_UART_Receive_IT` armed. -/

/-- One event of the subsystem, all on `huart1`. -/
inductive Event where
  /-- A call of `uartStartReceive()`. -/
  | startReceive
  /-- The link layer has stored `b0` in `rxBuf[0]` (the window armed with
  offset 0, size 1) and calls `HAL_UART_RxCpltCallback(&huart1)`. -/
  | rxFirstByte (b0 : Nat)
  /-- The link layer has stored `b1`, `b2` in `rxBuf[1]`, `rxBuf[2]` (the window
  armed with offset 1, size 2) and calls `HAL_UART_RxCpltCallback(&huart1)`. -/
  | rxRemainder (b1 b2 : Nat)
  /-- The 1 ms tick: a call of `checkTimeOutReception()`. -/
  | tick
  /-- The link layer calls `HAL_UART_ErrorCallback(&huart1)` while
  `HAL_UART_GetError` returns `error`. -/
  | uartError (error : Nat)
  /-- A call of `setTemperature(temperature)`. -/
  | temperature (temperature : Int)
  /-- A call of `setVoltage(voltage)`. -/
  | voltage (voltage : Nat)
  /-- A call of `setButton1State(buttonState)`. -/
  | button1 (buttonState : Bool)
  deriving DecidableEq, Repr

/-- The handler run by one event, with the HAL calls it makes. -/
def step (hal : HalUartError) : Event → State → State × List HalCall
  | .startReceive, s => uartStartReceive s
  | .rxFirstByte b0, s =>
      HAL_UART_RxCpltCallback true { s with rxBuf := s.rxBuf.set 0 b0 }
  | .rxRemainder b1 b2, s =>
      HAL_UART_RxCpltCallback true { s with rxBuf := (s.rxBuf.set 1 b1).set 2 b2 }
  | .tick, s => checkTimeOutReception s
  | .uartError error, s => HAL_UART_ErrorCallback hal true error s
  | .temperature t, s => (setTemperature t s, [])
  | .voltage v, s => (setVoltage v s, [])
  | .button1 b, s => (setButton1State b s, [])

/-- A serialized sequence of events, oldest first: the final state and all HAL
calls made, in order. -/
def run (hal : HalUartError) : List Event → State → State × List HalCall
  | [], s => (s, [])
  | e :: es, s =>
      let r := step hal e s
      let r2 := run hal es r.1
      (r2.1, r.2 ++ r2.2)

/-- The states the subsystem can be in: those some serialized sequence of events
leads to from the initial state. -/
def Reachable (hal : HalUartError) (s : State) : Prop :=
  ∃ es : List Event, (run hal es initState).1 = s

/-- A number `n` of consecutive calls of `checkTimeOutReception()`. -/
def ticks : Nat → State → State × List HalCall
  | 0, s => (s, [])
  | n + 1, s =>
      let r := checkTimeOutReception s
      let r2 := ticks n r.1
      (r2.1, r.2 ++ r2.2)

/-- A whole frame `b0 b1 b2` arriving: the first-byte event, then the remainder
event. -/
def receiveFrame (b0 b1 b2 : Nat) (s : State) : State × List HalCall :=
  let r1 := HAL_UART_RxCpltCallback true { s with rxBuf := s.rxBuf.set 0 b0 }
  let r2 := HAL_UART_RxCpltCallback true
    { r1.1 with rxBuf := (r1.1.rxBuf.set 1 b1).set 2 b2 }
  (r2.1, r1.2 ++ r2.2)

/-- The state in the remainder phase in which the link layer has completed the
frame `b0 b1 b2`, with response record `t` and tick counter 0. -/
def frameState (t : TxData) (b0 b1 b2 : Nat) : State :=
  { isWaitFirstByte_ := false, rxBuf := [b0, b1, b2], txData_ := t, timeOut := 0 }

/-- A response record with non-trivial telemetry: temperature -2, voltage
0x1234, button pressed, latched error `ERROR_UART_FRAME`. -/
def sampleTx : TxData :=
  { temperature := -2, voltage := 0x1234, led1State := false, led2State := true,
    led3State := false, led4State := false, button1State := true, reserve := 0,
    error := ERROR_UART_FRAME, crc := 0 }

/-- What every reachable state satisfies: the tick counter is below
`RECEPTION_TIME` and the request buffer has its `RX_BUF_SIZE` bytes. -/
def Inv (s : State) : Prop :=
  s.timeOut < RECEPTION_TIME ∧ s.rxBuf.length = RX_BUF_SIZE

/-- The receiver just after `uartStartReceive()` at start-up, with response
record `t`. -/
def freshState (t : TxData) : State :=
  (uartStartReceive { initState with txData_ := t }).1

/-- An instance of the parameter `HalUartError`: the single-bit flag values
usual in STM32 HAL headers. -/
def stm32HalUartError : HalUartError :=
  { PE := 0x01, NE := 0x02, FE := 0x04, ORE := 0x08, DMA := 0x10 }

/-- What every reachable response record satisfies: the reserve bits, which
are zero-initialised and never written, are zero, and the latched error is a
`uint8_t`. -/
def RecordInv (t : TxData) : Prop :=
  t.reserve = 0 ∧ t.error < 256

/-! ## Entry points and LED output lines -/

/-- One call of an entry point of `modbus_my.c`, by the application or by the
HAL. -/
inductive Handler where
  /-- A call `uartStartReceive()`. -/
  | startReceive
  /-- A call `checkTimeOutReception()`. -/
  | timeOutReception
  /-- A call `HAL_UART_ErrorCallback(huart)` while `HAL_UART_GetError` returns
  `error`; `isHuart1` is `huart == &huart1`. -/
  | errorCallback (isHuart1 : Bool) (error : Nat)
  /-- A call `HAL_UART_RxCpltCallback(huart)`; `isHuart1` is
  `huart == &huart1`. -/
  | rxCpltCallback (isHuart1 : Bool)
  /-- A call `setTemperature(temperature)`. -/
  | temperature (temperature : Int)
  /-- A call `setVoltage(voltage)`. -/
  | voltage (voltage : Nat)
  /-- A call `setButton1State(buttonState)`. -/
  | button1 (buttonState : Bool)
  deriving DecidableEq, Repr

/-- The effect of one entry-point call on the state, with the HAL calls made. -/
def exec (hal : HalUartError) : Handler → State → State × List HalCall
  | .startReceive, s => uartStartReceive s
  | .timeOutReception, s => checkTimeOutReception s
  | .errorCallback isHuart1 error, s => HAL_UART_ErrorCallback hal isHuart1 error s
  | .rxCpltCallback isHuart1, s => HAL_UART_RxCpltCallback isHuart1 s
  | .temperature t, s => (setTemperature t s, [])
  | .voltage v, s => (setVoltage v s, [])
  | .button1 b, s => (setButton1State b s, [])

/-- The levels of the four LED output lines `LED1_Pin` .. `LED4_Pin`. -/
structure Pins where
  led1 : Bool
  led2 : Bool
  led3 : Bool
  led4 : Bool
  deriving DecidableEq, Repr

/-- Modelled from the spec: the actuator output `set_output_line(id, bool)`,
which is `HAL_GPIO_WritePin` of the HAL (not among the sources): the call sets
the level of line `id`; no other HAL call touches an LED line. -/
def Pins.write (p : Pins) : HalCall → Pins
  | .GPIO_WritePin 1 level => { p with led1 := level }
  | .GPIO_WritePin 2 level => { p with led2 := level }
  | .GPIO_WritePin 3 level => { p with led3 := level }
  | .GPIO_WritePin 4 level => { p with led4 := level }
  | _ => p

/-- The LED lines after a sequence of HAL calls, oldest first. -/
def Pins.after (p : Pins) (calls : List HalCall) : Pins :=
  calls.foldl Pins.write p

/-- Mirror and output agree: each line is at the negation of its mirror bit
(the LEDs are active-low). -/
def MirrorAgrees (p : Pins) (t : TxData) : Prop :=
  p.led1 = (!t.led1State) ∧ p.led2 = (!t.led2State)
    ∧ p.led3 = (!t.led3State) ∧ p.led4 = (!t.led4State)

/-- The request `rxBuf` with bit `k` of the 24 flipped: bit `k % 8` of byte
`k / 8`. -/
def flipBit (k : Nat) (rxBuf : List Nat) : List Nat :=
  rxBuf.set (k / 8) (rxBuf.getD (k / 8) 0 ^^^ 2 ^ (k % 8))

/-- The inverse of `crc8Round` on bytes: an odd value came from a byte with top
bit set. -/
def crc8RoundInv (y : Nat) : Nat :=
  if y % 2 = 1 then (y ^^^ 0x31) / 2 + 128 else y / 2

/-- A serialized trace in which a frame starts with a used-up budget: a valid
poll `{0x11, 0x00, crc8}` whose remainder arrives after five ticks, and the
first byte of the next frame arriving before the next tick. -/
def shortBudgetTrace : List Event :=
  [Event.startReceive, Event.rxFirstByte 0x11,
   Event.tick, Event.tick, Event.tick, Event.tick, Event.tick,
   Event.rxRemainder 0x00 (crc8 [0x11, 0x00]),
   Event.rxFirstByte 0x11]

/-- The entry points of the core: all but the three telemetry setters. -/
def Handler.isCore : Handler → Bool
  | .temperature _ => false
  | .voltage _ => false
  | .button1 _ => false
  | _ => true

/-! ## CRC engines against the reference -/

theorem and_two_pow_ne_zero (c k : Nat) : (c &&& 2 ^ k ≠ 0) ↔ c.testBit k = true := by
  constructor
  · intro h
    by_contra hb
    apply h
    apply Nat.eq_of_testBit_eq
    intro i
    simp only [Nat.testBit_and, Nat.testBit_two_pow, Nat.zero_testBit]
    by_cases hki : k = i
    · subst hki; simp [hb]
    · simp [hki]
  · intro hb h
    have := congrArg (fun n => n.testBit k) h
    simp [hb, Nat.testBit_two_pow_self] at this

theorem crc8Round_eq (c : Nat) : crc8Round c = crcRoundW 8 0x31 c := by
  have h := and_two_pow_ne_zero c 7
  unfold crc8Round crcRoundW
  by_cases hb : c.testBit 7 = true
  · have : c &&& 0x80 ≠ 0 := h.2 hb
    simp [hb, this]
  · have : ¬ (c &&& 0x80 ≠ 0) := fun hc => hb (h.1 hc)
    simp only [ne_eq, Decidable.not_not] at this
    simp [hb, this]

theorem crc16Round_eq (c : Nat) : crc16Round c = crcRoundW 16 0x1021 c := by
  have h := and_two_pow_ne_zero c 15
  unfold crc16Round crcRoundW
  by_cases hb : c.testBit 15 = true
  · have : c &&& 0x8000 ≠ 0 := h.2 hb
    simp [hb, this]
  · have : ¬ (c &&& 0x8000 ≠ 0) := fun hc => hb (h.1 hc)
    simp only [ne_eq, Decidable.not_not] at this
    simp [hb, this]

theorem testBit_false_of_lt_of_le {p w i : Nat} (hp : p < 2 ^ w) (hi : w ≤ i) :
    p.testBit i = false :=
  Nat.testBit_lt_two_pow (lt_of_lt_of_le hp (Nat.pow_le_pow_right (by decide) hi))

theorem refCrcBit_lt {w p r : Nat} (hp : p < 2 ^ w) (bit : Bool) :
    refCrcBit w p r bit < 2 ^ w := by
  unfold refCrcBit
  have h1 : (2 * r) % 2 ^ w < 2 ^ w := Nat.mod_lt _ (by positivity)
  by_cases hb : (r.testBit (w - 1) ^^ bit) = true
  · simp only [hb, if_true]; exact Nat.xor_lt_two_pow h1 hp
  · simp only [hb]; exact h1

/-- One round of the byte-at-a-time register on `r ^^^ x` is one reference
step on `r` with the top bit of `x`, with the rest of `x` still pending. -/
theorem crcRoundW_xor {w p : Nat} (hp : p < 2 ^ w) (r x : Nat) :
    crcRoundW w p (r ^^^ x)
      = refCrcBit w p r (x.testBit (w - 1)) ^^^ ((x <<< 1) % 2 ^ w) := by
  unfold crcRoundW refCrcBit
  simp only [Nat.testBit_xor]
  cases hb : (r.testBit (w - 1) ^^ x.testBit (w - 1))
  case true =>
    simp only [if_true]
    apply Nat.eq_of_testBit_eq
    intro i
    simp only [Nat.testBit_mod_two_pow, Nat.testBit_xor, Nat.testBit_shiftLeft,
      Nat.mul_comm 2 r, ← Nat.shiftLeft_eq r 1, pow_one]
    by_cases hi : i < w
    · simp only [hi, decide_True, Bool.true_and]
      generalize decide (1 ≤ i) = a
      generalize r.testBit (i - 1) = b
      generalize x.testBit (i - 1) = c
      generalize p.testBit i = d
      cases a <;> cases b <;> cases c <;> cases d <;> rfl
    · simp [hi, testBit_false_of_lt_of_le hp (Nat.le_of_not_lt hi)]
  case false =>
    simp only [Bool.false_eq_true, if_false]
    apply Nat.eq_of_testBit_eq
    intro i
    simp only [Nat.testBit_mod_two_pow, Nat.testBit_xor, Nat.testBit_shiftLeft,
      Nat.mul_comm 2 r, ← Nat.shiftLeft_eq r 1, pow_one]
    by_cases hi : i < w
    · simp only [hi, decide_True, Bool.true_and]
      generalize decide (1 ≤ i) = a
      generalize r.testBit (i - 1) = b
      generalize x.testBit (i - 1) = c
      cases a <;> cases b <;> cases c <;> rfl
    · simp [hi]


theorem shiftLeft_mod_shiftLeft (w x n : Nat) :
    (((x <<< 1) % 2 ^ w) <<< n) % 2 ^ w = (x <<< (n + 1)) % 2 ^ w := by
  apply Nat.eq_of_testBit_eq
  intro i
  simp only [Nat.testBit_mod_two_pow, Nat.testBit_shiftLeft]
  by_cases hi : i < w
  · have h1 : i - n < w := by omega
    have h2 : i - n - 1 = i - (n + 1) := by omega
    by_cases h3 : n + 1 ≤ i
    · have h4 : n ≤ i := by omega
      have h5 : 1 ≤ i - n := by omega
      simp [hi, h1, h2, h3, h4, h5]
    · by_cases h4 : n ≤ i
      · have h5 : ¬ (1 ≤ i - n) := by omega
        simp [hi, h1, h3, h4, h5]
      · simp [hi, h3, h4]
  · simp [hi]

/-- Running `n` rounds of the byte-at-a-time register on `r ^^^ x` feeds the `n`
top bits of `x` to the reference register; the other bits of `x` stay pending. -/
theorem crcRoundW_iterate {w p : Nat} (hp : p < 2 ^ w) (n : Nat) :
    ∀ r x : Nat, x < 2 ^ w →
      (crcRoundW w p)^[n] (r ^^^ x)
        = (topBits w n x).foldl (refCrcBit w p) r ^^^ ((x <<< n) % 2 ^ w) := by
  induction n with
  | zero =>
    intro r x hx
    simp [topBits, Nat.mod_eq_of_lt hx]
  | succ n ih =>
    intro r x hx
    rw [Function.iterate_succ_apply, crcRoundW_xor hp,
      ih _ _ (Nat.mod_lt _ (by positivity)), shiftLeft_mod_shiftLeft]
    simp [topBits]

theorem testBit_mod_256 (x i : Nat) :
    (x % 256).testBit i = (decide (i < 8) && x.testBit i) :=
  Nat.testBit_mod_two_pow x 8 i

theorem testBit_mod_65536 (x i : Nat) :
    (x % 65536).testBit i = (decide (i < 16) && x.testBit i) :=
  Nat.testBit_mod_two_pow x 16 i

theorem topBits_byte8 (b : Nat) : topBits 8 8 (b % 256) = byteBitsMsbFirst b := by
  simp [topBits, byteBitsMsbFirst, testBit_mod_256, Nat.testBit_shiftLeft]
  omega

theorem topBits_byte16 (b : Nat) :
    topBits 16 8 ((b <<< 8) % 65536) = byteBitsMsbFirst b := by
  simp [topBits, byteBitsMsbFirst, testBit_mod_65536, Nat.testBit_shiftLeft]

theorem xor_mod_256 (c b : Nat) : (c ^^^ b) % 256 = c % 256 ^^^ b % 256 := by
  apply Nat.eq_of_testBit_eq
  intro i
  simp only [testBit_mod_256, Nat.testBit_xor]
  cases decide (i < 8) <;> simp

theorem xor_mod_65536 (c b : Nat) : (c ^^^ b) % 65536 = c % 65536 ^^^ b % 65536 := by
  apply Nat.eq_of_testBit_eq
  intro i
  simp only [testBit_mod_65536, Nat.testBit_xor]
  cases decide (i < 16) <;> simp

theorem byte_shiftLeft_mod_256 (b : Nat) : ((b % 256) <<< 8) % 256 = 0 := by
  apply Nat.eq_of_testBit_eq
  intro i
  simp only [testBit_mod_256, Nat.testBit_shiftLeft, Nat.zero_testBit]
  by_cases h : i < 8
  · have : ¬ (8 ≤ i) := by omega
    simp [this]
  · simp [h]

theorem byte_shiftLeft_mod_65536 (b : Nat) : (((b <<< 8) % 65536) <<< 8) % 65536 = 0 := by
  apply Nat.eq_of_testBit_eq
  intro i
  simp only [testBit_mod_65536, Nat.testBit_shiftLeft, Nat.zero_testBit]
  by_cases h : i < 16
  · by_cases h8 : 8 ≤ i
    · have : ¬ (8 ≤ i - 8) := by omega
      simp [this]
    · simp [h8]
  · simp [h]

/-- One byte through `crc8` is its eight bits, most significant first, through
the reference register. -/
theorem crc8Byte_eq (c b : Nat) (hc : c < 256) :
    crc8Byte c b = (byteBitsMsbFirst b).foldl (refCrcBit 8 0x31) c := by
  have hround : crc8Round = crcRoundW 8 0x31 := funext crc8Round_eq
  have h := crcRoundW_iterate (w := 8) (p := 0x31) (by decide) 8 c (b % 256)
    (Nat.mod_lt _ (by decide))
  unfold crc8Byte
  rw [hround, xor_mod_256, Nat.mod_eq_of_lt hc, h, topBits_byte8]
  have h0 : ((b % 256) <<< 8) % 2 ^ 8 = 0 := byte_shiftLeft_mod_256 b
  rw [h0, Nat.xor_zero]

/-- One byte through `crc16` is its eight bits, most significant first, through
the reference register. -/
theorem crc16Byte_eq (c b : Nat) (hc : c < 65536) :
    crc16Byte c b = (byteBitsMsbFirst b).foldl (refCrcBit 16 0x1021) c := by
  have hround : crc16Round = crcRoundW 16 0x1021 := funext crc16Round_eq
  have h := crcRoundW_iterate (w := 16) (p := 0x1021) (by decide) 8 c
    ((b <<< 8) % 65536) (Nat.mod_lt _ (by decide))
  unfold crc16Byte
  rw [hround, xor_mod_65536, Nat.mod_eq_of_lt hc, h, topBits_byte16]
  have h0 : (((b <<< 8) % 65536) <<< 8) % 2 ^ 16 = 0 := byte_shiftLeft_mod_65536 b
  rw [h0, Nat.xor_zero]

theorem refCrc_foldl_lt {w p : Nat} (hp : p < 2 ^ w) (bits : List Bool) :
    ∀ c, c < 2 ^ w → bits.foldl (refCrcBit w p) c < 2 ^ w := by
  induction bits with
  | nil => intro c hc; simpa using hc
  | cons b bs ih => intro c _; exact ih _ (refCrcBit_lt hp b)

theorem crc8Loop_eq (data : List Nat) :
    ∀ c, c < 256 →
      crc8Loop c data = (data.flatMap byteBitsMsbFirst).foldl (refCrcBit 8 0x31) c := by
  induction data with
  | nil => intro c _; rfl
  | cons b bs ih =>
    intro c hc
    have hlt : (byteBitsMsbFirst b).foldl (refCrcBit 8 0x31) c < 256 :=
      refCrc_foldl_lt (w := 8) (p := 0x31) (by decide) _ c hc
    rw [crc8Loop, crc8Byte_eq c b hc, ih _ hlt, List.flatMap_cons, List.foldl_append]

theorem crc16Loop_eq (data : List Nat) :
    ∀ c, c < 65536 →
      crc16Loop c data
        = (data.flatMap byteBitsMsbFirst).foldl (refCrcBit 16 0x1021) c := by
  induction data with
  | nil => intro c _; rfl
  | cons b bs ih =>
    intro c hc
    have hlt : (byteBitsMsbFirst b).foldl (refCrcBit 16 0x1021) c < 65536 :=
      refCrc_foldl_lt (w := 16) (p := 0x1021) (by decide) _ c hc
    rw [crc16Loop, crc16Byte_eq c b hc, ih _ hlt, List.flatMap_cons, List.foldl_append]

/-! ## The receive-complete handler -/

/-- The accept test of the remainder phase, on the three bytes of the buffer. -/
theorem frame_test (b0 b1 b2 : Nat) :
    ((rxAddress [b0, b1, b2] == DEVICE_ADDRESS
        && rxCrc [b0, b1, b2] == crc8 ([b0, b1, b2].take (sizeofRxData - sizeofRxCrc)))
      = true) ↔ (b0 % 16 = 1 ∧ b2 = crc8 [b0, b1]) := by
  simp [rxAddress, rxCrc, DEVICE_ADDRESS, sizeofRxData, sizeofRxCrc]

/-- Remainder phase, frame rejected: the handler only restarts the receiver. -/
theorem rxCplt_rejected (s : State) (b0 b1 b2 : Nat)
    (hphase : s.isWaitFirstByte_ = false) (hbuf : s.rxBuf = [b0, b1, b2])
    (hbad : b0 % 16 ≠ 1 ∨ b2 ≠ crc8 [b0, b1]) :
    HAL_UART_RxCpltCallback true s = uartStartReceive s := by
  have h : ¬ ((rxAddress [b0, b1, b2] == DEVICE_ADDRESS
        && rxCrc [b0, b1, b2] == crc8 ([b0, b1, b2].take (sizeofRxData - sizeofRxCrc)))
      = true) := by
    rw [frame_test]; tauto
  unfold HAL_UART_RxCpltCallback
  simp only [hphase, hbuf, h, if_true, if_false, Bool.false_eq_true]

/-- Remainder phase, frame accepted: dispatch, fresh crc, transmit, restart. -/
theorem rxCplt_accepted (s : State) (b0 b1 b2 : Nat)
    (hphase : s.isWaitFirstByte_ = false) (hbuf : s.rxBuf = [b0, b1, b2])
    (haddr : b0 % 16 = 1) (hcrc : b2 = crc8 [b0, b1]) :
    HAL_UART_RxCpltCallback true s =
      ({ isWaitFirstByte_ := true
         rxBuf := [0, 0, 0]
         txData_ :=
           { (dispatch [b0, b1, b2] s.txData_).1 with
             crc := crc16 ((txBytes (dispatch [b0, b1, b2] s.txData_).1).take 6) }
         timeOut := s.timeOut },
       (dispatch [b0, b1, b2] s.txData_).2
         ++ [HalCall.UART_Transmit_IT
              (txBytes
                { (dispatch [b0, b1, b2] s.txData_).1 with
                  crc := crc16 ((txBytes (dispatch [b0, b1, b2] s.txData_).1).take 6) })]
         ++ [HalCall.UART_Receive_IT 0 1]) := by
  have h : ((rxAddress [b0, b1, b2] == DEVICE_ADDRESS
        && rxCrc [b0, b1, b2] == crc8 ([b0, b1, b2].take (sizeofRxData - sizeofRxCrc)))
      = true) := by
    rw [frame_test]; exact ⟨haddr, hcrc⟩
  unfold HAL_UART_RxCpltCallback
  simp only [hphase, hbuf, h, if_true, if_false, Bool.false_eq_true]
  simp [uartStartReceive, clearBuffer, RX_BUF_SIZE, sizeofTxData, sizeofTxCrc, txBytes]

/-- The effect of `uartStartReceive` on a three-byte buffer. -/
theorem uartStartReceive_eq (s : State) (b0 b1 b2 : Nat) (hbuf : s.rxBuf = [b0, b1, b2]) :
    uartStartReceive s =
      ({ s with rxBuf := [0, 0, 0], isWaitFirstByte_ := true },
       [HalCall.UART_Receive_IT 0 1]) := by
  simp [uartStartReceive, hbuf, clearBuffer, RX_BUF_SIZE]

/-- C1. In the remainder phase a frame whose address nibble is not
`DEVICE_ADDRESS` or whose third byte is not `crc8` of the first two starts no
transmission, writes no LED output and leaves the whole response record
unchanged; the only HAL call re-arms the receiver for a first byte. -/
theorem C1_invalid_frame_ignored (s : State) (b0 b1 b2 : Nat)
    (hphase : s.isWaitFirstByte_ = false) (hbuf : s.rxBuf = [b0, b1, b2])
    (hbad : b0 % 16 ≠ DEVICE_ADDRESS ∨ b2 ≠ crc8 [b0, b1]) :
    (∀ c ∈ (HAL_UART_RxCpltCallback true s).2, c.isTransmit = false)
    ∧ (∀ c ∈ (HAL_UART_RxCpltCallback true s).2, c.isWritePin = false)
    ∧ (HAL_UART_RxCpltCallback true s).1.txData_ = s.txData_
    ∧ (HAL_UART_RxCpltCallback true s).2 = [HalCall.UART_Receive_IT 0 1]
    ∧ (HAL_UART_RxCpltCallback true s).1.isWaitFirstByte_ = true := by
  rw [rxCplt_rejected s b0 b1 b2 hphase hbuf hbad, uartStartReceive_eq s b0 b1 b2 hbuf]
  simp [HalCall.isTransmit, HalCall.isWritePin]

/-- C1, the scenario of the specification: bytes `{0x12, 0x0F, crc8}` carry
address nibble 2, so nothing is transmitted and the receiver is re-armed. -/
theorem C1_invalid_frame_ignored_witness :
    (0x12 % 16 ≠ DEVICE_ADDRESS ∨ crc8 [0x12, 0x0F] ≠ crc8 [0x12, 0x0F])
    ∧ (∀ c ∈ (HAL_UART_RxCpltCallback true
          { initState with isWaitFirstByte_ := false,
                           rxBuf := [0x12, 0x0F, crc8 [0x12, 0x0F]] }).2,
        c.isTransmit = false)
    ∧ (HAL_UART_RxCpltCallback true
          { initState with isWaitFirstByte_ := false,
                           rxBuf := [0x12, 0x0F, crc8 [0x12, 0x0F]] }).2
        = [HalCall.UART_Receive_IT 0 1]
    ∧ (HAL_UART_RxCpltCallback true
          { initState with isWaitFirstByte_ := false,
                           rxBuf := [0x12, 0x0F, crc8 [0x12, 0x0F]] }).1.isWaitFirstByte_
        = true :=
  have h := C1_invalid_frame_ignored
    { initState with isWaitFirstByte_ := false, rxBuf := [0x12, 0x0F, crc8 [0x12, 0x0F]] }
    0x12 0x0F (crc8 [0x12, 0x0F]) rfl rfl (Or.inl (by decide))
  ⟨Or.inl (by decide), h.1, h.2.2.2.1, h.2.2.2.2⟩

/-- The dispatcher on an `UPDATE_OUTPUTS` frame. -/
theorem dispatch_update_outputs (b0 b1 b2 : Nat) (t : TxData)
    (hcmd : b0 / 16 % 16 = 2) :
    dispatch [b0, b1, b2] t =
      ({ t with led1State := decide (b1 % 2 = 1), led2State := decide (b1 / 2 % 2 = 1),
                led3State := decide (b1 / 4 % 2 = 1), led4State := decide (b1 / 8 % 2 = 1) },
       [HalCall.GPIO_WritePin 1 (!decide (b1 % 2 = 1)),
        HalCall.GPIO_WritePin 2 (!decide (b1 / 2 % 2 = 1)),
        HalCall.GPIO_WritePin 3 (!decide (b1 / 4 % 2 = 1)),
        HalCall.GPIO_WritePin 4 (!decide (b1 / 8 % 2 = 1))]) := by
  simp [dispatch, rxCommand, hcmd, UART_COMMAND_SEND_DATA, UART_COMMAND_UPDATE_OUTPUTS,
    turnOnLed1, turnOnLed2, turnOnLed3, turnOnLed4, rxIsLed1On, rxIsLed2On, rxIsLed3On,
    rxIsLed4On]
  exact ⟨rfl, rfl, rfl, rfl⟩

/-- Bits 0..3 of byte 4 of the response record are the four LED mirror bits. -/
theorem txFlagsByte_bits (t : TxData) :
    txFlagsByte t % 2 = t.led1State.toNat ∧ txFlagsByte t / 2 % 2 = t.led2State.toNat
    ∧ txFlagsByte t / 4 % 2 = t.led3State.toNat ∧ txFlagsByte t / 8 % 2 = t.led4State.toNat
    ∧ txFlagsByte t / 16 % 2 = t.button1State.toNat
    ∧ txFlagsByte t / 32 = t.reserve % 8 := by
  unfold txFlagsByte
  cases t.led1State <;> cases t.led2State <;> cases t.led3State <;> cases t.led4State <;>
    cases t.button1State <;> simp only [Bool.toNat_true, Bool.toNat_false] <;> omega

/-- C2. A valid `UPDATE_OUTPUTS` frame in the remainder phase: each LED gets
exactly one output write, with the negated requested bit as pin level, the four
mirror bits of the record and of the transmitted response equal bits 0..3 of
request byte 1. -/
theorem C2_update_outputs (s : State) (b0 b1 b2 : Nat)
    (hphase : s.isWaitFirstByte_ = false) (hbuf : s.rxBuf = [b0, b1, b2])
    (haddr : b0 % 16 = DEVICE_ADDRESS)
    (hcmd : b0 / 16 % 16 = UART_COMMAND_UPDATE_OUTPUTS)
    (hcrc : b2 = crc8 [b0, b1]) :
    ∃ resp : List Nat,
      (HAL_UART_RxCpltCallback true s).2 =
        [HalCall.GPIO_WritePin 1 (!decide (b1 % 2 = 1)),
         HalCall.GPIO_WritePin 2 (!decide (b1 / 2 % 2 = 1)),
         HalCall.GPIO_WritePin 3 (!decide (b1 / 4 % 2 = 1)),
         HalCall.GPIO_WritePin 4 (!decide (b1 / 8 % 2 = 1)),
         HalCall.UART_Transmit_IT resp,
         HalCall.UART_Receive_IT 0 1]
      ∧ resp.length = 8
      ∧ resp.getD 4 0 % 2 = b1 % 2
      ∧ resp.getD 4 0 / 2 % 2 = b1 / 2 % 2
      ∧ resp.getD 4 0 / 4 % 2 = b1 / 4 % 2
      ∧ resp.getD 4 0 / 8 % 2 = b1 / 8 % 2
      ∧ (HAL_UART_RxCpltCallback true s).1.txData_.led1State = decide (b1 % 2 = 1)
      ∧ (HAL_UART_RxCpltCallback true s).1.txData_.led2State = decide (b1 / 2 % 2 = 1)
      ∧ (HAL_UART_RxCpltCallback true s).1.txData_.led3State = decide (b1 / 4 % 2 = 1)
      ∧ (HAL_UART_RxCpltCallback true s).1.txData_.led4State = decide (b1 / 8 % 2 = 1) := by
  rw [rxCplt_accepted s b0 b1 b2 hphase hbuf haddr hcrc, dispatch_update_outputs b0 b1 b2 _ hcmd]
  refine ⟨_, rfl, rfl, ?_, ?_, ?_, ?_, rfl, rfl, rfl, rfl⟩
  · simp only [txBytes, List.getD_cons_succ, List.getD_cons_zero, (txFlagsByte_bits _).1]
    by_cases h : b1 % 2 = 1 <;> simp only [h, decide_True, decide_False, Bool.toNat_true, Bool.toNat_false]
    omega
  · simp only [txBytes, List.getD_cons_succ, List.getD_cons_zero, (txFlagsByte_bits _).2.1]
    by_cases h : b1 / 2 % 2 = 1 <;> simp only [h, decide_True, decide_False, Bool.toNat_true, Bool.toNat_false]
    omega
  · simp only [txBytes, List.getD_cons_succ, List.getD_cons_zero, (txFlagsByte_bits _).2.2.1]
    by_cases h : b1 / 4 % 2 = 1 <;> simp only [h, decide_True, decide_False, Bool.toNat_true, Bool.toNat_false]
    omega
  · simp only [txBytes, List.getD_cons_succ, List.getD_cons_zero, (txFlagsByte_bits _).2.2.2.1]
    by_cases h : b1 / 8 % 2 = 1 <;> simp only [h, decide_True, decide_False, Bool.toNat_true, Bool.toNat_false]
    omega

/-- C2 at the frame `{0x21, 0x05, crc8}` (address 1, `UPDATE_OUTPUTS`, LED1 and
LED3 requested on): the first four HAL calls are the four pin writes. -/
theorem C2_update_outputs_witness :
    (0x21 % 16 = DEVICE_ADDRESS ∧ 0x21 / 16 % 16 = UART_COMMAND_UPDATE_OUTPUTS)
    ∧ (HAL_UART_RxCpltCallback true
          (frameState initState.txData_ 0x21 0x05 (crc8 [0x21, 0x05]))).2.take 4
        = [HalCall.GPIO_WritePin 1 false, HalCall.GPIO_WritePin 2 true,
           HalCall.GPIO_WritePin 3 false, HalCall.GPIO_WritePin 4 true] := by
  obtain ⟨resp, h, -⟩ := C2_update_outputs
    (frameState initState.txData_ 0x21 0x05 (crc8 [0x21, 0x05])) 0x21 0x05
    (crc8 [0x21, 0x05]) rfl rfl (by decide) (by decide) rfl
  exact ⟨by decide, by rw [h]; rfl⟩

/-- The value of `crc16` fits 16 bits. -/
theorem crc16_lt (data : List Nat) : crc16 data < 65536 := by
  unfold crc16
  rw [crc16Loop_eq data 0xFFFF (by decide)]
  exact refCrc_foldl_lt (w := 16) (p := 0x1021) (by decide) _ _ (by decide)

/-- The value of `crc8` fits 8 bits. -/
theorem crc8_lt (data : List Nat) : crc8 data < 256 := by
  unfold crc8
  rw [crc8Loop_eq data 0xFF (by decide)]
  exact refCrc_foldl_lt (w := 8) (p := 0x31) (by decide) _ _ (by decide)

/-- The dispatcher never transmits, and touches neither the telemetry nor the
reserve bits; the error it leaves is the old one, `ERROR_NONE` or
`ERROR_INCORRECT_UART_COMMAND`. -/
theorem dispatch_frame (rxBuf : List Nat) (t : TxData) :
    (∀ c ∈ (dispatch rxBuf t).2, c.isTransmit = false)
    ∧ (dispatch rxBuf t).1.temperature = t.temperature
    ∧ (dispatch rxBuf t).1.voltage = t.voltage
    ∧ (dispatch rxBuf t).1.button1State = t.button1State
    ∧ (dispatch rxBuf t).1.reserve = t.reserve
    ∧ ((dispatch rxBuf t).1.error = t.error ∨ (dispatch rxBuf t).1.error = 0
        ∨ (dispatch rxBuf t).1.error = 6) := by
  unfold dispatch
  split_ifs <;>
    simp [turnOnLed1, turnOnLed2, turnOnLed3, turnOnLed4, HalCall.isTransmit, ERROR_NONE,
      ERROR_INCORRECT_UART_COMMAND]

/-- The dispatcher on a `SEND_DATA` frame. -/
theorem dispatch_send_data (b0 b1 b2 : Nat) (t : TxData) (hcmd : b0 / 16 % 16 = 1) :
    dispatch [b0, b1, b2] t = (t, []) := by
  simp [dispatch, rxCommand, hcmd, UART_COMMAND_SEND_DATA]

/-- The crc field of a response record whose crc was just recomputed is the
`crc16` of the six bytes before it. -/
theorem txBytes_crc (t : TxData) :
    (txBytes { t with crc := crc16 ((txBytes t).take 6) }).getD 6 0
        + 256 * (txBytes { t with crc := crc16 ((txBytes t).take 6) }).getD 7 0
      = crc16 ((txBytes { t with crc := crc16 ((txBytes t).take 6) }).take 6) := by
  have h := crc16_lt ((txBytes t).take 6)
  simp only [txBytes, txFlagsByte, List.take_succ_cons, List.take_zero, List.getD_cons_succ,
    List.getD_cons_zero] at h ⊢
  omega

/-- C3, as stated, fails: the frame `{0x11, 0x02, crc8}` has command nibble 1,
which is `SEND_DATA`, and byte 1 = 0x02 sets `isLed2On`, not `isLed1On`. The
handler accepts it, writes no LED and answers with led1 mirror bit 0. -/
theorem C3_scenario_counterexample :
    rxAddress [0x11, 0x02, crc8 [0x11, 0x02]] = DEVICE_ADDRESS
    ∧ rxCommand [0x11, 0x02, crc8 [0x11, 0x02]] = UART_COMMAND_SEND_DATA
    ∧ rxCommand [0x11, 0x02, crc8 [0x11, 0x02]] ≠ UART_COMMAND_UPDATE_OUTPUTS
    ∧ rxIsLed1On [0x11, 0x02, crc8 [0x11, 0x02]] = false
    ∧ rxIsLed2On [0x11, 0x02, crc8 [0x11, 0x02]] = true
    ∧ HalCall.GPIO_WritePin 1 false ∉
        (HAL_UART_RxCpltCallback true
          (frameState initState.txData_ 0x11 0x02 (crc8 [0x11, 0x02]))).2
    ∧ (HAL_UART_RxCpltCallback true
          (frameState initState.txData_ 0x11 0x02 (crc8 [0x11, 0x02]))).1.txData_.led1State
        = false
    ∧ ∃ resp : List Nat,
        (HAL_UART_RxCpltCallback true
          (frameState initState.txData_ 0x11 0x02 (crc8 [0x11, 0x02]))).2
          = [HalCall.UART_Transmit_IT resp, HalCall.UART_Receive_IT 0 1]
        ∧ resp.getD 4 0 % 2 = 0 := by
  have h := rxCplt_accepted (frameState initState.txData_ 0x11 0x02 (crc8 [0x11, 0x02]))
    0x11 0x02 (crc8 [0x11, 0x02]) rfl rfl (by decide) rfl
  rw [dispatch_send_data 0x11 0x02 _ _ (by decide)] at h
  rw [h]
  refine ⟨by decide, by decide, by decide, by decide, by decide, ?_, rfl, _, rfl, ?_⟩
  · simp
  · simp [txBytes, txFlagsByte, frameState, initState]

/-- C3 amended. The frame `{0x11, 0x02, crc8}` is accepted as `SEND_DATA`: no
LED output is written, the mirror bits stay as they were, and the crc field of
the response is `crc16` of its first six bytes. The `UPDATE_OUTPUTS` frame with
`isLed1On = 1` and the other LED bits 0 is `{0x21, 0x01, crc8}`: it turns LED1
on (pin level low) and LED2..LED4 off, the response has led1 mirror bit 1 and
led2..led4 mirror bits 0, and its crc field is `crc16` of its first six bytes. -/
theorem C3_scenario_amended (s1 s2 : State)
    (hphase1 : s1.isWaitFirstByte_ = false)
    (hbuf1 : s1.rxBuf = [0x11, 0x02, crc8 [0x11, 0x02]])
    (hphase2 : s2.isWaitFirstByte_ = false)
    (hbuf2 : s2.rxBuf = [0x21, 0x01, crc8 [0x21, 0x01]]) :
    (rxCommand s1.rxBuf = UART_COMMAND_SEND_DATA
      ∧ ∃ resp : List Nat,
          (HAL_UART_RxCpltCallback true s1).2
            = [HalCall.UART_Transmit_IT resp, HalCall.UART_Receive_IT 0 1]
          ∧ (HAL_UART_RxCpltCallback true s1).1.txData_.led1State = s1.txData_.led1State
          ∧ (HAL_UART_RxCpltCallback true s1).1.txData_.led2State = s1.txData_.led2State
          ∧ (HAL_UART_RxCpltCallback true s1).1.txData_.led3State = s1.txData_.led3State
          ∧ (HAL_UART_RxCpltCallback true s1).1.txData_.led4State = s1.txData_.led4State
          ∧ resp.getD 4 0 % 2 = s1.txData_.led1State.toNat
          ∧ resp.length = 8
          ∧ resp.getD 6 0 + 256 * resp.getD 7 0 = crc16 (resp.take 6))
    ∧ (rxCommand s2.rxBuf = UART_COMMAND_UPDATE_OUTPUTS
      ∧ rxIsLed1On s2.rxBuf = true ∧ rxIsLed2On s2.rxBuf = false
      ∧ rxIsLed3On s2.rxBuf = false ∧ rxIsLed4On s2.rxBuf = false
      ∧ ∃ resp : List Nat,
          (HAL_UART_RxCpltCallback true s2).2
            = [HalCall.GPIO_WritePin 1 false, HalCall.GPIO_WritePin 2 true,
               HalCall.GPIO_WritePin 3 true, HalCall.GPIO_WritePin 4 true,
               HalCall.UART_Transmit_IT resp, HalCall.UART_Receive_IT 0 1]
          ∧ (HAL_UART_RxCpltCallback true s2).1.txData_.led1State = true
          ∧ resp.getD 4 0 % 16 = 1
          ∧ resp.length = 8
          ∧ resp.getD 6 0 + 256 * resp.getD 7 0 = crc16 (resp.take 6)) := by
  constructor
  · rw [rxCplt_accepted s1 _ _ _ hphase1 hbuf1 (by decide) rfl,
      dispatch_send_data 0x11 0x02 _ _ (by decide), hbuf1]
    refine ⟨by decide, _, rfl, rfl, rfl, rfl, rfl, ?_, rfl, txBytes_crc _⟩
    simp only [txBytes, List.getD_cons_succ, List.getD_cons_zero]
    exact (txFlagsByte_bits _).1
  · rw [rxCplt_accepted s2 _ _ _ hphase2 hbuf2 (by decide) rfl,
      dispatch_update_outputs 0x21 0x01 _ _ (by decide), hbuf2]
    refine ⟨by decide, by decide, by decide, by decide, by decide, _, rfl, rfl, ?_, rfl,
      txBytes_crc _⟩
    simp only [txBytes, List.getD_cons_succ, List.getD_cons_zero, txFlagsByte]
    cases s2.txData_.button1State <;> simp <;> omega

/-- C3 amended, at the initial response record. -/
theorem C3_scenario_amended_witness :
    rxCommand (frameState initState.txData_ 0x11 0x02 (crc8 [0x11, 0x02])).rxBuf
        = UART_COMMAND_SEND_DATA
    ∧ rxCommand (frameState initState.txData_ 0x21 0x01 (crc8 [0x21, 0x01])).rxBuf
        = UART_COMMAND_UPDATE_OUTPUTS
    ∧ (HAL_UART_RxCpltCallback true
          (frameState initState.txData_ 0x21 0x01 (crc8 [0x21, 0x01]))).1.txData_.led1State
        = true :=
  have h := C3_scenario_amended
    (frameState initState.txData_ 0x11 0x02 (crc8 [0x11, 0x02]))
    (frameState initState.txData_ 0x21 0x01 (crc8 [0x21, 0x01])) rfl rfl rfl rfl
  ⟨h.1.1, h.2.1, by obtain ⟨_, _, _, _, _, _, _, h3, _⟩ := h.2; exact h3⟩

/-- The dispatcher issues no transmit call. -/
theorem dispatch_filter_isTransmit (rxBuf : List Nat) (t : TxData) :
    (dispatch rxBuf t).2.filter HalCall.isTransmit = [] := by
  rw [List.filter_eq_nil_iff]
  intro c hc
  simp [(dispatch_frame rxBuf t).1 c hc]

/-- C4. A valid frame in the remainder phase makes the handler hand exactly one
byte sequence to the link layer, of 8 bytes: the little-endian image of the
record after dispatch (temperature, voltage, flags byte with the LED mirrors in
bits 0..3, the button in bit 4 and bits 5..7 zero, latched error), then `crc16`
of these six bytes, low byte first; the crc field of the record is that value.
The reserve bits are zero-initialised and never written, the error is a
`uint8_t`: both are assumed of the prior state. -/
theorem C4_response_bytes (s : State) (b0 b1 b2 : Nat)
    (hphase : s.isWaitFirstByte_ = false) (hbuf : s.rxBuf = [b0, b1, b2])
    (haddr : b0 % 16 = DEVICE_ADDRESS) (hcrc : b2 = crc8 [b0, b1])
    (hres : s.txData_.reserve = 0) (herr : s.txData_.error < 256) :
    let post := (HAL_UART_RxCpltCallback true s).1.txData_
    let first6 : List Nat :=
      [ (post.temperature % 256).toNat, (post.temperature / 256 % 256).toNat,
        post.voltage % 256, post.voltage / 256 % 256,
        post.led1State.toNat + 2 * post.led2State.toNat + 4 * post.led3State.toNat
          + 8 * post.led4State.toNat + 16 * post.button1State.toNat,
        post.error ]
    (HAL_UART_RxCpltCallback true s).2.filter HalCall.isTransmit
        = [HalCall.UART_Transmit_IT (first6 ++ [crc16 first6 % 256, crc16 first6 / 256])]
    ∧ post.crc = crc16 first6
    ∧ (first6 ++ [crc16 first6 % 256, crc16 first6 / 256]).length = 8 := by
  intro post first6
  have hacc := rxCplt_accepted s b0 b1 b2 hphase hbuf haddr hcrc
  obtain ⟨-, -, -, -, hres', herr'⟩ := dispatch_frame [b0, b1, b2] s.txData_
  have hr : (dispatch [b0, b1, b2] s.txData_).1.reserve % 8 = 0 := by rw [hres', hres]
  have he : (dispatch [b0, b1, b2] s.txData_).1.error % 256
      = (dispatch [b0, b1, b2] s.txData_).1.error := by
    apply Nat.mod_eq_of_lt
    rcases herr' with h | h | h <;> rw [h] <;> omega
  have hsix : (txBytes (dispatch [b0, b1, b2] s.txData_).1).take 6 = first6 := by
    simp only [first6, post, hacc, txBytes, txFlagsByte, hr, he, List.take_succ_cons,
      List.take_zero, Nat.mul_zero, Nat.add_zero]
  have hlt := crc16_lt first6
  have hpost : post.crc = crc16 first6 := by
    simp only [post, hacc, hsix]
  refine ⟨?_, hpost, rfl⟩
  have hdiv : crc16 first6 / 256 % 256 = crc16 first6 / 256 := by omega
  rw [hacc]
  simp only [List.filter_append, dispatch_filter_isTransmit, List.nil_append]
  simp only [List.filter, HalCall.isTransmit, List.append_nil, hsix]
  have hb : txBytes { (dispatch [b0, b1, b2] s.txData_).1 with crc := crc16 first6 }
      = (txBytes (dispatch [b0, b1, b2] s.txData_).1).take 6
          ++ [crc16 first6 % 256, crc16 first6 / 256 % 256] := by
    simp [txBytes, txFlagsByte]
  rw [hb, hsix, hdiv]

/-- C4 on the record `sampleTx` and the frame `{0x21, 0x05, crc8}`
(`UPDATE_OUTPUTS`, LED1 and LED3 on): the crc field is computed over the bytes
`FE FF 34 12 15 03` of the record after dispatch. -/
theorem C4_response_bytes_witness :
    (0x21 % 16 = DEVICE_ADDRESS ∧ sampleTx.reserve = 0 ∧ sampleTx.error < 256)
    ∧ (HAL_UART_RxCpltCallback true
          (frameState sampleTx 0x21 0x05 (crc8 [0x21, 0x05]))).1.txData_.crc
        = crc16 [0xFE, 0xFF, 0x34, 0x12, 0x15, 0x03] :=
  ⟨by decide,
   (C4_response_bytes (frameState sampleTx 0x21 0x05 (crc8 [0x21, 0x05])) 0x21 0x05
      (crc8 [0x21, 0x05]) rfl rfl (by decide) rfl rfl (by decide)).2.1⟩

/-- C5. `crc8` is the reference CRC-8 (most significant bit first, not
reflected, polynomial 0x31, initial value 0xFF, no final xor) on every byte
sequence, so in particular on those of length below 256; it is a function of the
bytes alone. The fixed vectors: `00 00` gives 0x81, `FF FF` gives 0xAC and
`BE EF` gives 0x92. -/
theorem C5_crc8_reference :
    (∀ data : List Nat, crc8 data = refCrc 8 0x31 0xFF data)
    ∧ crc8 [0x00, 0x00] = 0x81 ∧ crc8 [0xFF, 0xFF] = 0xAC ∧ crc8 [0xBE, 0xEF] = 0x92 :=
  ⟨fun data => crc8Loop_eq data 0xFF (by decide), by decide, by decide, by decide⟩

set_option maxRecDepth 100000 in
/-- C6. `crc16` is the reference CRC-16 (most significant bit first, not
reflected, polynomial 0x1021, initial value 0xFFFF, no final xor: CCITT-FALSE),
all values kept to 16 bits, on every byte sequence, so in particular on those of
length below 256; it is a function of the bytes alone. The fixed vectors: the
empty input gives 0xFFFF, `00` gives 0xE1F0 and ASCII "123456789" gives
0x29B1. -/
theorem C6_crc16_reference :
    (∀ data : List Nat, crc16 data = refCrc 16 0x1021 0xFFFF data ∧ crc16 data < 2 ^ 16)
    ∧ crc16 [] = 0xFFFF ∧ crc16 [0x00] = 0xE1F0
    ∧ crc16 [0x31, 0x32, 0x33, 0x34, 0x35, 0x36, 0x37, 0x38, 0x39] = 0x29B1 :=
  ⟨fun data => ⟨crc16Loop_eq data 0xFFFF (by decide), crc16_lt data⟩,
   by decide, by decide, by decide⟩

/-- The dispatcher on an `ERROR_RESET` frame. -/
theorem dispatch_error_reset (b0 b1 b2 : Nat) (t : TxData) (hcmd : b0 / 16 % 16 = 0xF) :
    dispatch [b0, b1, b2] t = ({ t with error := ERROR_NONE }, []) := by
  simp [dispatch, rxCommand, hcmd, UART_COMMAND_SEND_DATA, UART_COMMAND_UPDATE_OUTPUTS,
    UART_COMMAND_ERROR_RESET]

/-- The dispatcher on a frame whose command is none of the three known ones. -/
theorem dispatch_unknown (b0 b1 b2 : Nat) (t : TxData)
    (h1 : b0 / 16 % 16 ≠ 0x1) (h2 : b0 / 16 % 16 ≠ 0x2) (hF : b0 / 16 % 16 ≠ 0xF) :
    dispatch [b0, b1, b2] t = ({ t with error := ERROR_INCORRECT_UART_COMMAND }, []) := by
  simp [dispatch, rxCommand, h1, h2, hF, UART_COMMAND_SEND_DATA,
    UART_COMMAND_UPDATE_OUTPUTS, UART_COMMAND_ERROR_RESET]

/-- A frame arriving at a receiver that waits for a first byte: the first-byte
event arms the remainder, the remainder event sees the whole frame. -/
theorem receiveFrame_eq (s : State) (x0 x1 x2 c0 c1 c2 : Nat)
    (hphase : s.isWaitFirstByte_ = true) (hbuf : s.rxBuf = [x0, x1, x2]) :
    receiveFrame c0 c1 c2 s =
      ((HAL_UART_RxCpltCallback true
          { s with isWaitFirstByte_ := false, rxBuf := [c0, c1, c2] }).1,
       HalCall.UART_Receive_IT 1 2 ::
        (HAL_UART_RxCpltCallback true
          { s with isWaitFirstByte_ := false, rxBuf := [c0, c1, c2] }).2) := by
  unfold receiveFrame
  have h1 : HAL_UART_RxCpltCallback true { s with rxBuf := s.rxBuf.set 0 c0 }
      = ({ s with isWaitFirstByte_ := false, rxBuf := [c0, x1, x2] },
         [HalCall.UART_Receive_IT 1 2]) := by
    simp [HAL_UART_RxCpltCallback, hphase, hbuf, RX_BUF_SIZE]
  simp [h1]

/-- C7. Whatever error is latched, a valid `ERROR_RESET` frame followed, with
no error callback in between, by a valid `SEND_DATA` frame (first-byte event,
then remainder event) is answered twice with error byte `ERROR_NONE`: in the
response to the reset and in the response to the poll. -/
theorem C7_reset_then_poll (s : State) (b0 b1 b2 c0 c1 c2 : Nat)
    (hphase : s.isWaitFirstByte_ = false) (hbuf : s.rxBuf = [b0, b1, b2])
    (haddr : b0 % 16 = DEVICE_ADDRESS) (hcmd : b0 / 16 % 16 = UART_COMMAND_ERROR_RESET)
    (hcrc : b2 = crc8 [b0, b1])
    (haddr2 : c0 % 16 = DEVICE_ADDRESS) (hcmd2 : c0 / 16 % 16 = UART_COMMAND_SEND_DATA)
    (hcrc2 : c2 = crc8 [c0, c1]) :
    ∃ resp1 resp2 : List Nat,
      (HAL_UART_RxCpltCallback true s).2
        = [HalCall.UART_Transmit_IT resp1, HalCall.UART_Receive_IT 0 1]
      ∧ resp1.length = 8 ∧ resp1.getD 5 0xFF = ERROR_NONE
      ∧ (receiveFrame c0 c1 c2 (HAL_UART_RxCpltCallback true s).1).2
        = [HalCall.UART_Receive_IT 1 2, HalCall.UART_Transmit_IT resp2,
           HalCall.UART_Receive_IT 0 1]
      ∧ resp2.length = 8 ∧ resp2.getD 5 0xFF = ERROR_NONE
      ∧ (receiveFrame c0 c1 c2 (HAL_UART_RxCpltCallback true s).1).1.txData_.error
        = ERROR_NONE := by
  rw [rxCplt_accepted s b0 b1 b2 hphase hbuf haddr hcrc, dispatch_error_reset b0 b1 b2 _ hcmd]
  rw [receiveFrame_eq _ 0 0 0 c0 c1 c2 rfl rfl,
    rxCplt_accepted _ c0 c1 c2 rfl rfl haddr2 hcrc2, dispatch_send_data c0 c1 c2 _ hcmd2]
  exact ⟨_, _, rfl, rfl, rfl, rfl, rfl, rfl, rfl⟩

/-- C7 from the record `sampleTx`, whose latched error is `ERROR_UART_FRAME`:
after the reset frame `{0xF1, 0x00, crc8}` and the poll `{0x11, 0x00, crc8}` the
latched error is `ERROR_NONE`. -/
theorem C7_reset_then_poll_witness :
    (sampleTx.error = ERROR_UART_FRAME ∧ 0xF1 % 16 = DEVICE_ADDRESS
      ∧ 0xF1 / 16 % 16 = UART_COMMAND_ERROR_RESET ∧ 0x11 % 16 = DEVICE_ADDRESS
      ∧ 0x11 / 16 % 16 = UART_COMMAND_SEND_DATA)
    ∧ (receiveFrame 0x11 0x00 (crc8 [0x11, 0x00])
        (HAL_UART_RxCpltCallback true
          (frameState sampleTx 0xF1 0x00 (crc8 [0xF1, 0x00]))).1).1.txData_.error
      = ERROR_NONE := by
  obtain ⟨_, _, _, _, _, _, _, _, h⟩ := C7_reset_then_poll
    (frameState sampleTx 0xF1 0x00 (crc8 [0xF1, 0x00])) 0xF1 0x00 (crc8 [0xF1, 0x00])
    0x11 0x00 (crc8 [0x11, 0x00]) rfl rfl (by decide) (by decide) rfl (by decide)
    (by decide) rfl
  exact ⟨by decide, h⟩

/-- C8. A valid frame whose command nibble is none of `SEND_DATA` (0x1),
`UPDATE_OUTPUTS` (0x2), `ERROR_RESET` (0xF) latches
`ERROR_INCORRECT_UART_COMMAND`, is answered with error byte 0x06, writes no LED
output and leaves LED mirrors, temperature, voltage and button state as they
were, whatever the LED bits of the request. -/
theorem C8_unknown_command (s : State) (b0 b1 b2 : Nat)
    (hphase : s.isWaitFirstByte_ = false) (hbuf : s.rxBuf = [b0, b1, b2])
    (haddr : b0 % 16 = DEVICE_ADDRESS) (hcrc : b2 = crc8 [b0, b1])
    (h1 : b0 / 16 % 16 ≠ UART_COMMAND_SEND_DATA)
    (h2 : b0 / 16 % 16 ≠ UART_COMMAND_UPDATE_OUTPUTS)
    (hF : b0 / 16 % 16 ≠ UART_COMMAND_ERROR_RESET) :
    (HAL_UART_RxCpltCallback true s).1.txData_.error = ERROR_INCORRECT_UART_COMMAND
    ∧ (∃ resp : List Nat,
        (HAL_UART_RxCpltCallback true s).2
          = [HalCall.UART_Transmit_IT resp, HalCall.UART_Receive_IT 0 1]
        ∧ resp.length = 8 ∧ resp.getD 5 0 = 0x06)
    ∧ (∀ c ∈ (HAL_UART_RxCpltCallback true s).2, c.isWritePin = false)
    ∧ (HAL_UART_RxCpltCallback true s).1.txData_.led1State = s.txData_.led1State
    ∧ (HAL_UART_RxCpltCallback true s).1.txData_.led2State = s.txData_.led2State
    ∧ (HAL_UART_RxCpltCallback true s).1.txData_.led3State = s.txData_.led3State
    ∧ (HAL_UART_RxCpltCallback true s).1.txData_.led4State = s.txData_.led4State
    ∧ (HAL_UART_RxCpltCallback true s).1.txData_.temperature = s.txData_.temperature
    ∧ (HAL_UART_RxCpltCallback true s).1.txData_.voltage = s.txData_.voltage
    ∧ (HAL_UART_RxCpltCallback true s).1.txData_.button1State = s.txData_.button1State := by
  rw [rxCplt_accepted s b0 b1 b2 hphase hbuf haddr hcrc, dispatch_unknown b0 b1 b2 _ h1 h2 hF]
  refine ⟨rfl, ⟨_, rfl, rfl, rfl⟩, ?_, rfl, rfl, rfl, rfl, rfl, rfl, rfl⟩
  simp [HalCall.isWritePin]

/-- C8 at the frame `{0x71, 0x0F, crc8}`: command 0x7 with all four LED bits
set latches error 0x06 and leaves LED2, which is on in `sampleTx`, on. -/
theorem C8_unknown_command_witness :
    (0x71 % 16 = DEVICE_ADDRESS ∧ 0x71 / 16 % 16 ≠ UART_COMMAND_SEND_DATA
      ∧ 0x71 / 16 % 16 ≠ UART_COMMAND_UPDATE_OUTPUTS
      ∧ 0x71 / 16 % 16 ≠ UART_COMMAND_ERROR_RESET)
    ∧ (HAL_UART_RxCpltCallback true
          (frameState sampleTx 0x71 0x0F (crc8 [0x71, 0x0F]))).1.txData_.error = 0x06
    ∧ (HAL_UART_RxCpltCallback true
          (frameState sampleTx 0x71 0x0F (crc8 [0x71, 0x0F]))).1.txData_.led2State
        = true :=
  have h := C8_unknown_command (frameState sampleTx 0x71 0x0F (crc8 [0x71, 0x0F]))
    0x71 0x0F (crc8 [0x71, 0x0F]) rfl rfl (by decide) rfl (by decide) (by decide)
    (by decide)
  ⟨by decide, h.1, h.2.2.2.2.1⟩

/-- C10. In the remainder phase, whatever the three bytes of the buffer, the
handler ends as `uartStartReceive` does: cursor waiting for a first byte, buffer
all zero, and the last HAL call arms a receive of one byte at offset 0. -/
theorem C10_always_rearmed (s : State) (b0 b1 b2 : Nat)
    (hphase : s.isWaitFirstByte_ = false) (hbuf : s.rxBuf = [b0, b1, b2]) :
    (HAL_UART_RxCpltCallback true s).1.isWaitFirstByte_ = true
    ∧ (HAL_UART_RxCpltCallback true s).1.rxBuf = [0x00, 0x00, 0x00]
    ∧ (HAL_UART_RxCpltCallback true s).2.getLast?
        = some (HalCall.UART_Receive_IT 0 1)
    ∧ (HAL_UART_RxCpltCallback true s).1.timeOut = s.timeOut := by
  by_cases hok : b0 % 16 = 1 ∧ b2 = crc8 [b0, b1]
  · rw [rxCplt_accepted s b0 b1 b2 hphase hbuf hok.1 hok.2]
    simp
  · rw [rxCplt_rejected s b0 b1 b2 hphase hbuf (by tauto), uartStartReceive_eq s b0 b1 b2 hbuf]
    simp

/-- C10 at an accepted frame and at a rejected one. -/
theorem C10_always_rearmed_witness :
    (HAL_UART_RxCpltCallback true
        (frameState sampleTx 0x21 0x05 (crc8 [0x21, 0x05]))).1.rxBuf = [0, 0, 0]
    ∧ (HAL_UART_RxCpltCallback true (frameState sampleTx 0x12 0x0F 0x00)).2.getLast?
        = some (HalCall.UART_Receive_IT 0 1) :=
  ⟨(C10_always_rearmed (frameState sampleTx 0x21 0x05 (crc8 [0x21, 0x05])) 0x21 0x05
      (crc8 [0x21, 0x05]) rfl rfl).2.1,
   (C10_always_rearmed (frameState sampleTx 0x12 0x0F 0x00) 0x12 0x0F 0x00 rfl rfl).2.2.1⟩

/-! ## Reachable states and the timeout supervisor -/

theorem clearBuffer_length (data : List Nat) :
    ∀ size, (clearBuffer data size).length = data.length := by
  induction data with
  | nil => intro size; cases size <;> rfl
  | cons b bs ih =>
    intro size
    cases size with
    | zero => rfl
    | succ n => simp [clearBuffer, ih n]

theorem uartStartReceive_inv (s : State) (h : Inv s) : Inv (uartStartReceive s).1 := by
  obtain ⟨h1, h2⟩ := h
  exact ⟨h1, by simp [uartStartReceive, clearBuffer_length, h2]⟩

theorem rxCplt_inv (isHuart1 : Bool) (s : State) (h : Inv s) :
    Inv (HAL_UART_RxCpltCallback isHuart1 s).1 := by
  unfold HAL_UART_RxCpltCallback
  dsimp only
  split_ifs
  · exact h
  · exact uartStartReceive_inv _ h
  · exact uartStartReceive_inv _ h
  · exact h

theorem checkTimeOutReception_inv (s : State) (h : Inv s) :
    Inv (checkTimeOutReception s).1 := by
  have h0 : (0 : Nat) < RECEPTION_TIME := by decide
  unfold checkTimeOutReception
  dsimp only
  split_ifs with h1 h2
  · exact ⟨h0, h.2⟩
  · exact uartStartReceive_inv _ ⟨h0, h.2⟩
  · exact ⟨Nat.not_le.mp h2, h.2⟩

theorem errorCallback_inv (hal : HalUartError) (isHuart1 : Bool) (error : Nat) (s : State)
    (h : Inv s) : Inv (HAL_UART_ErrorCallback hal isHuart1 error s).1 := by
  unfold HAL_UART_ErrorCallback
  split_ifs <;> exact h

theorem step_inv (hal : HalUartError) (e : Event) (s : State) (h : Inv s) :
    Inv (step hal e s).1 := by
  cases e with
  | startReceive => exact uartStartReceive_inv s h
  | rxFirstByte b0 => exact rxCplt_inv true _ ⟨h.1, by simp [h.2]⟩
  | rxRemainder b1 b2 => exact rxCplt_inv true _ ⟨h.1, by simp [h.2]⟩
  | tick => exact checkTimeOutReception_inv s h
  | uartError error => exact errorCallback_inv hal true error s h
  | temperature t => exact h
  | voltage v => exact h
  | button1 b => exact h

theorem run_inv (hal : HalUartError) (es : List Event) :
    ∀ s, Inv s → Inv (run hal es s).1 := by
  induction es with
  | nil => intro s h; exact h
  | cons e es ih => intro s h; exact ih _ (step_inv hal e s h)

/-- Every reachable state has its tick counter below `RECEPTION_TIME` and a
three-byte request buffer. -/
theorem reachable_inv (hal : HalUartError) (s : State) (h : Reachable hal s) : Inv s := by
  obtain ⟨es, rfl⟩ := h
  exact run_inv hal es initState ⟨by decide, rfl⟩

/-- While the budget lasts, ticks in the in-progress phase only count. -/
theorem ticks_counting (j : Nat) :
    ∀ s : State, s.isWaitFirstByte_ = false → s.timeOut + j < RECEPTION_TIME →
      ticks j s = ({ s with timeOut := s.timeOut + j }, []) := by
  induction j with
  | zero => intro s _ _; rfl
  | succ j ih =>
    intro s hphase hlt
    have hlt' : s.timeOut + 1 < RECEPTION_TIME := by omega
    have h256 : (s.timeOut + 1) % 256 = s.timeOut + 1 :=
      Nat.mod_eq_of_lt (by unfold RECEPTION_TIME at hlt'; omega)
    have h1 : checkTimeOutReception s = ({ s with timeOut := s.timeOut + 1 }, []) := by
      simp [checkTimeOutReception, hphase, h256, Nat.not_le.mpr hlt']
    have h2 := ih { s with timeOut := s.timeOut + 1 } hphase
      (by show s.timeOut + 1 + j < RECEPTION_TIME; omega)
    unfold ticks
    rw [h1]
    dsimp only
    rw [h2]
    simp [Nat.add_assoc, Nat.add_comm 1 j]

/-- The tick that uses up the budget aborts the receive and restarts it. -/
theorem tick_abort (s : State) (x0 x1 x2 : Nat) (hphase : s.isWaitFirstByte_ = false)
    (hbuf : s.rxBuf = [x0, x1, x2]) (ht : s.timeOut + 1 = RECEPTION_TIME) :
    checkTimeOutReception s =
      ({ s with isWaitFirstByte_ := true, rxBuf := [0, 0, 0], timeOut := 0 },
       [HalCall.UART_AbortReceive_IT, HalCall.UART_Receive_IT 0 1]) := by
  simp [checkTimeOutReception, hphase, ht, RECEPTION_TIME, uartStartReceive, hbuf,
    clearBuffer, RX_BUF_SIZE]

/-- Ticks while waiting for a first byte, counter at zero, change nothing. -/
theorem ticks_waiting (n : Nat) (s : State) (hphase : s.isWaitFirstByte_ = true)
    (ht : s.timeOut = 0) : ticks n s = (s, []) := by
  induction n with
  | zero => rfl
  | succ n ih =>
    have h1 : checkTimeOutReception s = (s, []) := by
      cases s
      simp only at hphase ht
      simp [checkTimeOutReception, hphase, ht]
    simp [ticks, h1, ih]

theorem ticks_add (a : Nat) :
    ∀ (b : Nat) (s : State),
      ticks (a + b) s = ((ticks b (ticks a s).1).1, (ticks a s).2 ++ (ticks b (ticks a s).1).2) := by
  induction a with
  | zero => intro b s; simp [ticks]
  | succ a ih =>
    intro b s
    rw [Nat.add_right_comm]
    simp only [ticks, ih, List.append_assoc]

/-- From a state in the in-progress phase with counter below `RECEPTION_TIME`,
the tick number `RECEPTION_TIME - timeOut` aborts and restarts the receive, and
every later tick leaves that state alone. -/
theorem ticks_recover (s : State) (x0 x1 x2 : Nat) (hphase : s.isWaitFirstByte_ = false)
    (hbuf : s.rxBuf = [x0, x1, x2]) (ht : s.timeOut < RECEPTION_TIME) (n : Nat)
    (hn : RECEPTION_TIME - s.timeOut ≤ n) :
    ticks n s = (freshState s.txData_,
      [HalCall.UART_AbortReceive_IT, HalCall.UART_Receive_IT 0 1]) := by
  obtain ⟨m, rfl⟩ : ∃ m, n = (RECEPTION_TIME - s.timeOut - 1) + (1 + m) :=
    ⟨n - (RECEPTION_TIME - s.timeOut), by omega⟩
  have hcount := ticks_counting (RECEPTION_TIME - s.timeOut - 1) s hphase (by omega)
  have habort := tick_abort
    { s with timeOut := s.timeOut + (RECEPTION_TIME - s.timeOut - 1) } x0 x1 x2 hphase hbuf
    (by show s.timeOut + (RECEPTION_TIME - s.timeOut - 1) + 1 = RECEPTION_TIME; omega)
  have hfresh : freshState s.txData_
      = { s with isWaitFirstByte_ := true, rxBuf := [0, 0, 0], timeOut := 0 } := by
    simp [freshState, uartStartReceive, initState, clearBuffer, RX_BUF_SIZE]
  have hwait := ticks_waiting m (freshState s.txData_) rfl rfl
  rw [ticks_add, hcount, ticks_add]
  have h1 : ticks 1 { s with timeOut := s.timeOut + (RECEPTION_TIME - s.timeOut - 1) }
      = (freshState s.txData_,
          [HalCall.UART_AbortReceive_IT, HalCall.UART_Receive_IT 0 1]) := by
    simp only [ticks, habort, hfresh, List.append_nil]
  simp only [h1, hwait, List.nil_append, List.append_nil]

/-- C9. In a reachable state whose cursor is in-progress, some tick `k` with
`1 ≤ k ≤ RECEPTION_TIME` aborts the receive: no earlier run of ticks makes a HAL
call or leaves the in-progress phase, and after `k` or more consecutive ticks
the receive has been aborted and re-armed once, the cursor waits for a first
byte, the buffer is all zero and the counter is 0: the state is the one of a
freshly started receiver with the same response record. A frame that then
arrives is handled as by that receiver, and a valid one is dispatched and
answered. -/
theorem C9_timeout_recovery (hal : HalUartError) (s : State)
    (hreach : Reachable hal s) (hphase : s.isWaitFirstByte_ = false) :
    ∃ k, 1 ≤ k ∧ k ≤ RECEPTION_TIME
      ∧ (∀ j, j < k → (ticks j s).1.isWaitFirstByte_ = false ∧ (ticks j s).2 = [])
      ∧ (∀ n, k ≤ n →
          (ticks n s).2 = [HalCall.UART_AbortReceive_IT, HalCall.UART_Receive_IT 0 1]
          ∧ (ticks n s).1.isWaitFirstByte_ = true
          ∧ (ticks n s).1.rxBuf = [0x00, 0x00, 0x00]
          ∧ (ticks n s).1.timeOut = 0
          ∧ (ticks n s).1 = freshState s.txData_
          ∧ ∀ c0 c1 c2 : Nat,
              receiveFrame c0 c1 c2 (ticks n s).1
                = receiveFrame c0 c1 c2 (freshState s.txData_)
              ∧ (c0 % 16 = DEVICE_ADDRESS → c2 = crc8 [c0, c1] →
                  (receiveFrame c0 c1 c2 (ticks n s).1).2
                    = HalCall.UART_Receive_IT 1 2
                        :: ((dispatch [c0, c1, c2] s.txData_).2
                          ++ [HalCall.UART_Transmit_IT
                                (txBytes (receiveFrame c0 c1 c2 (ticks n s).1).1.txData_),
                              HalCall.UART_Receive_IT 0 1])
                  ∧ (receiveFrame c0 c1 c2 (ticks n s).1).1.txData_
                    = { (dispatch [c0, c1, c2] s.txData_).1 with
                        crc := crc16 ((txBytes (dispatch [c0, c1, c2] s.txData_).1).take 6) })) := by
  obtain ⟨ht, hlen⟩ := reachable_inv hal s hreach
  obtain ⟨x0, x1, x2, hbuf⟩ : ∃ x0 x1 x2, s.rxBuf = [x0, x1, x2] := by
    match hs : s.rxBuf, hlen with
    | [x0, x1, x2], _ => exact ⟨x0, x1, x2, rfl⟩
  refine ⟨RECEPTION_TIME - s.timeOut, by omega, by omega, ?_, ?_⟩
  · intro j hj
    rw [ticks_counting j s hphase (by omega)]
    exact ⟨hphase, rfl⟩
  · intro n hn
    rw [ticks_recover s x0 x1 x2 hphase hbuf ht n hn]
    have hfresh : freshState s.txData_
        = { s with isWaitFirstByte_ := true, rxBuf := [0, 0, 0], timeOut := 0 } := by
      simp [freshState, uartStartReceive, initState, clearBuffer, RX_BUF_SIZE]
    refine ⟨rfl, rfl, rfl, rfl, rfl, ?_⟩
    intro c0 c1 c2
    refine ⟨rfl, ?_⟩
    intro haddr hcrc
    rw [receiveFrame_eq (freshState s.txData_) 0 0 0 c0 c1 c2 rfl rfl,
      rxCplt_accepted _ c0 c1 c2 rfl rfl haddr hcrc]
    simp [freshState, uartStartReceive, initState]

/-- C9 on the state reached by a first byte and three ticks: seven more ticks
abort the receive, and after ten the receiver waits for a first byte with a
zeroed buffer. -/
theorem C9_timeout_recovery_witness :
    (run stm32HalUartError
        [Event.startReceive, Event.rxFirstByte 0x11, Event.tick, Event.tick, Event.tick]
        initState).1.isWaitFirstByte_ = false
    ∧ (ticks RECEPTION_TIME
        (run stm32HalUartError
          [Event.startReceive, Event.rxFirstByte 0x11, Event.tick, Event.tick, Event.tick]
          initState).1).1.isWaitFirstByte_ = true
    ∧ (ticks RECEPTION_TIME
        (run stm32HalUartError
          [Event.startReceive, Event.rxFirstByte 0x11, Event.tick, Event.tick, Event.tick]
          initState).1).1.rxBuf = [0, 0, 0] := by
  obtain ⟨k, _, hk, _, h⟩ := C9_timeout_recovery stm32HalUartError
    (run stm32HalUartError
      [Event.startReceive, Event.rxFirstByte 0x11, Event.tick, Event.tick, Event.tick]
      initState).1
    ⟨_, rfl⟩ (by decide)
  exact ⟨by decide, (h RECEPTION_TIME hk).2.1, (h RECEPTION_TIME hk).2.2.1⟩

theorem rxCplt_recordInv (isHuart1 : Bool) (s : State) (h : RecordInv s.txData_) :
    RecordInv (HAL_UART_RxCpltCallback isHuart1 s).1.txData_ := by
  obtain ⟨-, -, -, -, hres, herr⟩ := dispatch_frame s.rxBuf s.txData_
  unfold HAL_UART_RxCpltCallback
  dsimp only
  split_ifs
  · exact h
  · refine ⟨hres.trans h.1, ?_⟩
    show (dispatch s.rxBuf s.txData_).1.error < 256
    rcases herr with e | e | e <;> rw [e]
    · exact h.2
    · decide
    · decide
  · exact h
  · exact h

theorem checkTimeOutReception_recordInv (s : State) (h : RecordInv s.txData_) :
    RecordInv (checkTimeOutReception s).1.txData_ := by
  unfold checkTimeOutReception
  dsimp only
  split_ifs <;> exact h

theorem errorCallback_recordInv (hal : HalUartError) (isHuart1 : Bool) (error : Nat)
    (s : State) (h : RecordInv s.txData_) :
    RecordInv (HAL_UART_ErrorCallback hal isHuart1 error s).1.txData_ := by
  unfold HAL_UART_ErrorCallback
  dsimp only
  have h1 : ERROR_UART_PARITY < 256 := by decide
  have h2 : ERROR_UART_NOISE < 256 := by decide
  have h3 : ERROR_UART_FRAME < 256 := by decide
  have h4 : ERROR_UART_OVERRUN < 256 := by decide
  have h5 : ERROR_UART_DMA_TRANSFER < 256 := by decide
  split_ifs
  · exact ⟨h.1, h1⟩
  · exact ⟨h.1, h2⟩
  · exact ⟨h.1, h3⟩
  · exact ⟨h.1, h4⟩
  · exact ⟨h.1, h5⟩
  · exact h
  · exact h

theorem step_recordInv (hal : HalUartError) (e : Event) (s : State)
    (h : RecordInv s.txData_) : RecordInv (step hal e s).1.txData_ := by
  cases e with
  | startReceive => exact h
  | rxFirstByte b0 => exact rxCplt_recordInv true _ h
  | rxRemainder b1 b2 => exact rxCplt_recordInv true _ h
  | tick => exact checkTimeOutReception_recordInv s h
  | uartError error => exact errorCallback_recordInv hal true error s h
  | temperature t => exact h
  | voltage v => exact h
  | button1 b => exact h

theorem run_recordInv (hal : HalUartError) (es : List Event) :
    ∀ s : State, RecordInv s.txData_ → RecordInv (run hal es s).1.txData_ := by
  induction es with
  | nil => intro s h; exact h
  | cons e es ih => intro s h; exact ih _ (step_recordInv hal e s h)

/-- In every reachable state the reserve bits of the response record are zero
and its latched error is below 256. -/
theorem reachable_recordInv (hal : HalUartError) (s : State) (h : Reachable hal s) :
    RecordInv s.txData_ := by
  obtain ⟨es, rfl⟩ := h
  exact run_recordInv hal es initState ⟨rfl, by decide⟩

/-! ## Replies, polls and restarts -/

/-- C11. In the remainder phase a frame with address 1 and correct crc8 starts
exactly one transmission, of exactly 8 bytes, whatever its command nibble; and
the handler transmits if and only if the address and the crc8 both match. -/
theorem C11_reply_iff_valid (s : State) (b0 b1 b2 : Nat)
    (hphase : s.isWaitFirstByte_ = false) (hbuf : s.rxBuf = [b0, b1, b2]) :
    ((b0 % 16 = DEVICE_ADDRESS ∧ b2 = crc8 [b0, b1]) →
        ∃ resp : List Nat,
          (HAL_UART_RxCpltCallback true s).2.filter HalCall.isTransmit
            = [HalCall.UART_Transmit_IT resp]
          ∧ resp.length = 8)
    ∧ ((∃ c ∈ (HAL_UART_RxCpltCallback true s).2, c.isTransmit = true)
        ↔ (b0 % 16 = DEVICE_ADDRESS ∧ b2 = crc8 [b0, b1])) := by
  by_cases hok : b0 % 16 = 1 ∧ b2 = crc8 [b0, b1]
  · have hacc := rxCplt_accepted s b0 b1 b2 hphase hbuf hok.1 hok.2
    constructor
    · intro _
      rw [hacc]
      simp only [List.filter_append, dispatch_filter_isTransmit, List.nil_append]
      exact ⟨_, rfl, rfl⟩
    · constructor
      · intro _; exact hok
      · intro _
        rw [hacc]
        exact ⟨_, List.mem_append_left _
          (List.mem_append_right _ (List.mem_singleton.mpr rfl)), rfl⟩
  · have hrej := rxCplt_rejected s b0 b1 b2 hphase hbuf (by tauto)
    constructor
    · intro h; exact absurd h hok
    · constructor
      · rintro ⟨c, hc, ht⟩
        rw [hrej, uartStartReceive_eq s b0 b1 b2 hbuf] at hc
        simp only [List.mem_singleton] at hc
        subst hc
        simp [HalCall.isTransmit] at ht
      · intro h; exact absurd h hok

/-- C11 on two frames: `{0x71, 0x00, crc8}` (unknown command 7) is answered,
`{0x12, 0x0F, crc8}` (address 2) is not. -/
theorem C11_reply_iff_valid_witness :
    (∃ c ∈ (HAL_UART_RxCpltCallback true
        (frameState sampleTx 0x71 0x00 (crc8 [0x71, 0x00]))).2, c.isTransmit = true)
    ∧ ¬ (∃ c ∈ (HAL_UART_RxCpltCallback true
        (frameState sampleTx 0x12 0x0F (crc8 [0x12, 0x0F]))).2, c.isTransmit = true) :=
  ⟨(C11_reply_iff_valid (frameState sampleTx 0x71 0x00 (crc8 [0x71, 0x00])) 0x71 0x00
      (crc8 [0x71, 0x00]) rfl rfl).2.mpr ⟨by decide, rfl⟩,
   fun h => absurd ((C11_reply_iff_valid (frameState sampleTx 0x12 0x0F (crc8 [0x12, 0x0F]))
      0x12 0x0F (crc8 [0x12, 0x0F]) rfl rfl).2.mp h).1 (by decide)⟩

/-- C12. A valid `SEND_DATA` frame changes nothing but the crc field of the
response record, writes no LED output and is answered with one response,
whatever the LED bits of request byte 1. -/
theorem C12_send_data_frame (s : State) (b0 b1 b2 : Nat)
    (hphase : s.isWaitFirstByte_ = false) (hbuf : s.rxBuf = [b0, b1, b2])
    (haddr : b0 % 16 = DEVICE_ADDRESS) (hcmd : b0 / 16 % 16 = UART_COMMAND_SEND_DATA)
    (hcrc : b2 = crc8 [b0, b1]) :
    (∃ resp : List Nat,
        (HAL_UART_RxCpltCallback true s).2
          = [HalCall.UART_Transmit_IT resp, HalCall.UART_Receive_IT 0 1]
        ∧ resp.length = 8)
    ∧ (∀ c ∈ (HAL_UART_RxCpltCallback true s).2, c.isWritePin = false)
    ∧ (HAL_UART_RxCpltCallback true s).1.txData_
        = { s.txData_ with crc := (HAL_UART_RxCpltCallback true s).1.txData_.crc }
    ∧ (HAL_UART_RxCpltCallback true s).1.txData_.led1State = s.txData_.led1State
    ∧ (HAL_UART_RxCpltCallback true s).1.txData_.led2State = s.txData_.led2State
    ∧ (HAL_UART_RxCpltCallback true s).1.txData_.led3State = s.txData_.led3State
    ∧ (HAL_UART_RxCpltCallback true s).1.txData_.led4State = s.txData_.led4State
    ∧ (HAL_UART_RxCpltCallback true s).1.txData_.error = s.txData_.error
    ∧ (HAL_UART_RxCpltCallback true s).1.txData_.temperature = s.txData_.temperature
    ∧ (HAL_UART_RxCpltCallback true s).1.txData_.voltage = s.txData_.voltage
    ∧ (HAL_UART_RxCpltCallback true s).1.txData_.button1State = s.txData_.button1State
    ∧ (HAL_UART_RxCpltCallback true s).1.txData_.crc
        = crc16 ((txBytes s.txData_).take 6) := by
  rw [rxCplt_accepted s b0 b1 b2 hphase hbuf haddr hcrc, dispatch_send_data b0 b1 b2 _ hcmd]
  refine ⟨⟨_, rfl, rfl⟩, ?_, rfl, rfl, rfl, rfl, rfl, rfl, rfl, rfl, rfl, rfl⟩
  simp [HalCall.isWritePin]

/-- C12 at the poll `{0x11, 0x0F, crc8}` with all four LED bits set: LED2, on
in `sampleTx`, stays on and LED1 stays off, the latched error stays. -/
theorem C12_send_data_frame_witness :
    (0x11 % 16 = DEVICE_ADDRESS ∧ 0x11 / 16 % 16 = UART_COMMAND_SEND_DATA)
    ∧ (HAL_UART_RxCpltCallback true
          (frameState sampleTx 0x11 0x0F (crc8 [0x11, 0x0F]))).1.txData_.led1State = false
    ∧ (HAL_UART_RxCpltCallback true
          (frameState sampleTx 0x11 0x0F (crc8 [0x11, 0x0F]))).1.txData_.led2State = true
    ∧ (HAL_UART_RxCpltCallback true
          (frameState sampleTx 0x11 0x0F (crc8 [0x11, 0x0F]))).1.txData_.error
        = ERROR_UART_FRAME :=
  have h := C12_send_data_frame (frameState sampleTx 0x11 0x0F (crc8 [0x11, 0x0F]))
    0x11 0x0F (crc8 [0x11, 0x0F]) rfl rfl (by decide) (by decide) rfl
  ⟨by decide, h.2.2.2.1, h.2.2.2.2.1, h.2.2.2.2.2.2.2.1⟩

theorem clearBuffer_idem (data : List Nat) :
    ∀ size, clearBuffer (clearBuffer data size) size = clearBuffer data size := by
  induction data with
  | nil => intro size; cases size <;> rfl
  | cons b bs ih =>
    intro size
    cases size with
    | zero => rfl
    | succ n => simp [clearBuffer, ih n]

/-- C13. Calling `uartStartReceive` twice in a row leaves the same state (cursor,
request buffer, response record, tick counter) as calling it once, from every
state; neither call transmits or writes an LED output, so the LED lines are the
same after two calls as after one, and as before. -/
theorem C13_start_receive_idempotent (s : State) (p : Pins) :
    (uartStartReceive (uartStartReceive s).1).1 = (uartStartReceive s).1
    ∧ (uartStartReceive s).1.txData_ = s.txData_
    ∧ (∀ c ∈ (uartStartReceive s).2 ++ (uartStartReceive (uartStartReceive s).1).2,
        c.isTransmit = false ∧ c.isWritePin = false)
    ∧ p.after ((uartStartReceive s).2 ++ (uartStartReceive (uartStartReceive s).1).2)
        = p.after (uartStartReceive s).2
    ∧ p.after (uartStartReceive s).2 = p := by
  refine ⟨?_, rfl, ?_, rfl, rfl⟩
  · simp [uartStartReceive, clearBuffer_idem]
  · simp [uartStartReceive, HalCall.isTransmit, HalCall.isWritePin]

/-! ## The error latch -/

/-- What `HAL_UART_ErrorCallback` can do: it changes at most the latched error,
to the old value or to one of the five transport codes, and makes neither a
transmit nor a pin write. -/
theorem errorCallback_frame (hal : HalUartError) (isHuart1 : Bool) (error : Nat)
    (s : State) :
    (HAL_UART_ErrorCallback hal isHuart1 error s).1
        = { s with txData_ :=
              { s.txData_ with
                error := (HAL_UART_ErrorCallback hal isHuart1 error s).1.txData_.error } }
    ∧ ((HAL_UART_ErrorCallback hal isHuart1 error s).1.txData_.error = s.txData_.error
        ∨ (1 ≤ (HAL_UART_ErrorCallback hal isHuart1 error s).1.txData_.error
            ∧ (HAL_UART_ErrorCallback hal isHuart1 error s).1.txData_.error ≤ 5))
    ∧ (∀ c ∈ (HAL_UART_ErrorCallback hal isHuart1 error s).2,
        c.isTransmit = false ∧ c.isWritePin = false) := by
  unfold HAL_UART_ErrorCallback
  dsimp only
  split_ifs <;>
    simp [HalCall.isTransmit, HalCall.isWritePin, ERROR_UART_PARITY, ERROR_UART_NOISE,
      ERROR_UART_FRAME, ERROR_UART_OVERRUN, ERROR_UART_DMA_TRANSFER]

/-- C14. For the handled UART, with the five `HAL_UART_ERROR_*` values pairwise
distinct (they are `case` labels of one `switch`): parity, noise, framing,
overrun and DMA faults latch 0x01, 0x02, 0x03, 0x04, 0x05, five distinct
non-zero codes different from `ERROR_INCORRECT_UART_COMMAND`; every other
reported value leaves the latch as it is. In all cases cursor, request buffer,
tick counter and every other field of the response record are unchanged, and
nothing is transmitted and no LED output written. -/
theorem C14_error_latch (hal : HalUartError)
    (hdistinct : [hal.PE, hal.NE, hal.FE, hal.ORE, hal.DMA].Nodup)
    (s : State) (error : Nat) :
    (error = hal.PE → (HAL_UART_ErrorCallback hal true error s).1.txData_.error = 0x01)
    ∧ (error = hal.NE → (HAL_UART_ErrorCallback hal true error s).1.txData_.error = 0x02)
    ∧ (error = hal.FE → (HAL_UART_ErrorCallback hal true error s).1.txData_.error = 0x03)
    ∧ (error = hal.ORE → (HAL_UART_ErrorCallback hal true error s).1.txData_.error = 0x04)
    ∧ (error = hal.DMA → (HAL_UART_ErrorCallback hal true error s).1.txData_.error = 0x05)
    ∧ (error ∉ [hal.PE, hal.NE, hal.FE, hal.ORE, hal.DMA] →
        (HAL_UART_ErrorCallback hal true error s).1.txData_.error = s.txData_.error)
    ∧ [ERROR_NONE, ERROR_UART_PARITY, ERROR_UART_NOISE, ERROR_UART_FRAME,
        ERROR_UART_OVERRUN, ERROR_UART_DMA_TRANSFER, ERROR_INCORRECT_UART_COMMAND]
        = [0x00, 0x01, 0x02, 0x03, 0x04, 0x05, 0x06]
    ∧ (HAL_UART_ErrorCallback hal true error s).1
        = { s with txData_ :=
              { s.txData_ with
                error := (HAL_UART_ErrorCallback hal true error s).1.txData_.error } }
    ∧ (∀ c ∈ (HAL_UART_ErrorCallback hal true error s).2,
        c.isTransmit = false ∧ c.isWritePin = false) := by
  obtain ⟨hsame, -, hcalls⟩ := errorCallback_frame hal true error s
  simp only [List.nodup_cons, List.mem_cons, List.mem_singleton, not_or, List.not_mem_nil,
    not_false_eq_true, List.nodup_nil, and_true] at hdistinct
  obtain ⟨⟨h12, h13, h14, h15⟩, ⟨h23, h24, h25⟩, ⟨h34, h35⟩, h45⟩ := hdistinct
  refine ⟨?_, ?_, ?_, ?_, ?_, ?_, rfl, hsame, hcalls⟩
  · intro h; subst h
    simp [HAL_UART_ErrorCallback, ERROR_UART_PARITY]
  · intro h; subst h
    simp [HAL_UART_ErrorCallback, ERROR_UART_NOISE, Ne.symm h12]
  · intro h; subst h
    simp [HAL_UART_ErrorCallback, ERROR_UART_FRAME, Ne.symm h13, Ne.symm h23]
  · intro h; subst h
    simp [HAL_UART_ErrorCallback, ERROR_UART_OVERRUN, Ne.symm h14, Ne.symm h24, Ne.symm h34]
  · intro h; subst h
    simp [HAL_UART_ErrorCallback, ERROR_UART_DMA_TRANSFER, Ne.symm h15, Ne.symm h25,
      Ne.symm h35, Ne.symm h45]
  · intro h
    simp only [List.mem_cons, List.mem_singleton, not_or, List.not_mem_nil, or_false] at h
    obtain ⟨n1, n2, n3, n4, n5⟩ := h
    simp [HAL_UART_ErrorCallback, n1, n2, n3, n4, n5]

/-- C14 with the usual STM32 flag values: parity (0x01) latches 0x01, while "no
error" (0) and the combination parity + noise (0x03) leave the latched
`ERROR_UART_FRAME` of `sampleTx` in place. -/
theorem C14_error_latch_witness :
    [stm32HalUartError.PE, stm32HalUartError.NE, stm32HalUartError.FE,
      stm32HalUartError.ORE, stm32HalUartError.DMA].Nodup
    ∧ (HAL_UART_ErrorCallback stm32HalUartError true 0x01
        (frameState sampleTx 0 0 0)).1.txData_.error = 0x01
    ∧ (HAL_UART_ErrorCallback stm32HalUartError true 0x00
        (frameState sampleTx 0 0 0)).1.txData_.error = ERROR_UART_FRAME
    ∧ (HAL_UART_ErrorCallback stm32HalUartError true 0x03
        (frameState sampleTx 0 0 0)).1.txData_.error = ERROR_UART_FRAME :=
  ⟨by decide,
   (C14_error_latch stm32HalUartError (by decide) (frameState sampleTx 0 0 0) 0x01).1 rfl,
   (C14_error_latch stm32HalUartError (by decide) (frameState sampleTx 0 0 0)
      0x00).2.2.2.2.2.1 (by decide),
   (C14_error_latch stm32HalUartError (by decide) (frameState sampleTx 0 0 0)
      0x03).2.2.2.2.2.1 (by decide)⟩

/-- The four arms of the dispatcher. -/
theorem dispatch_cases (rxBuf : List Nat) (t : TxData) :
    (rxCommand rxBuf = UART_COMMAND_SEND_DATA ∧ dispatch rxBuf t = (t, []))
    ∨ (rxCommand rxBuf = UART_COMMAND_UPDATE_OUTPUTS
        ∧ dispatch rxBuf t =
          ({ t with led1State := rxIsLed1On rxBuf, led2State := rxIsLed2On rxBuf,
                    led3State := rxIsLed3On rxBuf, led4State := rxIsLed4On rxBuf },
           [HalCall.GPIO_WritePin 1 (!rxIsLed1On rxBuf),
            HalCall.GPIO_WritePin 2 (!rxIsLed2On rxBuf),
            HalCall.GPIO_WritePin 3 (!rxIsLed3On rxBuf),
            HalCall.GPIO_WritePin 4 (!rxIsLed4On rxBuf)]))
    ∨ (rxCommand rxBuf = UART_COMMAND_ERROR_RESET
        ∧ dispatch rxBuf t = ({ t with error := ERROR_NONE }, []))
    ∨ (rxCommand rxBuf ≠ UART_COMMAND_SEND_DATA
        ∧ rxCommand rxBuf ≠ UART_COMMAND_UPDATE_OUTPUTS
        ∧ rxCommand rxBuf ≠ UART_COMMAND_ERROR_RESET
        ∧ dispatch rxBuf t = ({ t with error := ERROR_INCORRECT_UART_COMMAND }, [])) := by
  unfold dispatch
  split_ifs with h1 h2 h3
  · exact Or.inl ⟨h1, rfl⟩
  · exact Or.inr (Or.inl ⟨h2, by simp [turnOnLed1, turnOnLed2, turnOnLed3, turnOnLed4]⟩)
  · exact Or.inr (Or.inr (Or.inl ⟨h3, rfl⟩))
  · exact Or.inr (Or.inr (Or.inr ⟨h1, h2, h3, rfl⟩))

/-- The two outcomes of `HAL_UART_RxCpltCallback`: either the response record is
untouched and neither a transmit nor a pin write is made, or the call is for
`huart1` in the remainder phase on an accepted frame, which is dispatched and
answered. -/
theorem rxCplt_cases (isHuart1 : Bool) (s : State) :
    ((HAL_UART_RxCpltCallback isHuart1 s).1.txData_ = s.txData_
      ∧ (∀ c ∈ (HAL_UART_RxCpltCallback isHuart1 s).2,
          c.isTransmit = false ∧ c.isWritePin = false))
    ∨ (isHuart1 = true ∧ s.isWaitFirstByte_ = false
      ∧ rxAddress s.rxBuf = DEVICE_ADDRESS
      ∧ rxCrc s.rxBuf = crc8 (s.rxBuf.take (sizeofRxData - sizeofRxCrc))
      ∧ (HAL_UART_RxCpltCallback isHuart1 s).1.txData_
          = { (dispatch s.rxBuf s.txData_).1 with
              crc := crc16 ((txBytes (dispatch s.rxBuf s.txData_).1).take
                (sizeofTxData - sizeofTxCrc)) }
      ∧ (HAL_UART_RxCpltCallback isHuart1 s).2
          = (dispatch s.rxBuf s.txData_).2
            ++ [HalCall.UART_Transmit_IT
                  ((txBytes
                    { (dispatch s.rxBuf s.txData_).1 with
                      crc := crc16 ((txBytes (dispatch s.rxBuf s.txData_).1).take
                        (sizeofTxData - sizeofTxCrc)) }).take sizeofTxData)]
            ++ [HalCall.UART_Receive_IT 0 1]) := by
  unfold HAL_UART_RxCpltCallback
  dsimp only
  split_ifs with h1 h2 h3
  · left; simp [HalCall.isTransmit, HalCall.isWritePin]
  · right
    simp only [Bool.and_eq_true, beq_iff_eq] at h3
    exact ⟨h1, by simpa using h2, h3.1, h3.2, rfl, rfl⟩
  · left; simp [uartStartReceive, HalCall.isTransmit, HalCall.isWritePin]
  · left; simp

/-- C15. The latched error is never cleared spontaneously: if it is non-zero
before an entry-point call and `ERROR_NONE` after it, the call was
`HAL_UART_RxCpltCallback` for `huart1` in the remainder phase on a frame with
address 1, correct crc8 and command `ERROR_RESET`. -/
theorem C15_error_not_cleared (hal : HalUartError) (h : Handler) (s : State)
    (hlatched : s.txData_.error ≠ ERROR_NONE)
    (hcleared : (exec hal h s).1.txData_.error = ERROR_NONE) :
    h = Handler.rxCpltCallback true
    ∧ s.isWaitFirstByte_ = false
    ∧ rxAddress s.rxBuf = DEVICE_ADDRESS
    ∧ rxCrc s.rxBuf = crc8 (s.rxBuf.take 2)
    ∧ rxCommand s.rxBuf = UART_COMMAND_ERROR_RESET := by
  cases h with
  | startReceive => exact absurd hcleared hlatched
  | timeOutReception =>
    exfalso
    apply hlatched
    have : (checkTimeOutReception s).1.txData_ = s.txData_ := by
      unfold checkTimeOutReception
      dsimp only
      split_ifs <;> rfl
    rw [← this]; exact hcleared
  | errorCallback isHuart1 error =>
    exfalso
    obtain ⟨-, herr, -⟩ := errorCallback_frame hal isHuart1 error s
    simp only [exec] at hcleared
    rcases herr with e | ⟨e1, -⟩
    · exact hlatched (e ▸ hcleared)
    · rw [hcleared] at e1; exact absurd e1 (by decide)
  | rxCpltCallback isHuart1 =>
    simp only [exec] at hcleared
    rcases rxCplt_cases isHuart1 s with ⟨hsame, -⟩ | ⟨h1, h2, h3, h4, hpost, -⟩
    · exact absurd (hsame ▸ hcleared) hlatched
    · subst h1
      rw [hpost] at hcleared
      refine ⟨rfl, h2, h3, h4, ?_⟩
      rcases dispatch_cases s.rxBuf s.txData_ with
        ⟨-, hd⟩ | ⟨-, hd⟩ | ⟨hc, -⟩ | ⟨-, -, -, hd⟩
      · rw [hd] at hcleared; exact absurd hcleared hlatched
      · rw [hd] at hcleared; exact absurd hcleared hlatched
      · exact hc
      · rw [hd] at hcleared
        have h6 : ERROR_INCORRECT_UART_COMMAND ≠ ERROR_NONE := by decide
        exact absurd hcleared h6
  | temperature t => exact absurd hcleared hlatched
  | voltage v => exact absurd hcleared hlatched
  | button1 b => exact absurd hcleared hlatched

/-- C15 at the reset frame `{0xF1, 0x00, crc8}` on `sampleTx`, whose latched
error is `ERROR_UART_FRAME`: the call that clears it is the receive-complete
callback and the frame's command is `ERROR_RESET`. -/
theorem C15_error_not_cleared_witness :
    (frameState sampleTx 0xF1 0x00 (crc8 [0xF1, 0x00])).txData_.error ≠ ERROR_NONE
    ∧ (exec stm32HalUartError (Handler.rxCpltCallback true)
        (frameState sampleTx 0xF1 0x00 (crc8 [0xF1, 0x00]))).1.txData_.error = ERROR_NONE
    ∧ rxCommand (frameState sampleTx 0xF1 0x00 (crc8 [0xF1, 0x00])).rxBuf
        = UART_COMMAND_ERROR_RESET :=
  have hc : (exec stm32HalUartError (Handler.rxCpltCallback true)
      (frameState sampleTx 0xF1 0x00 (crc8 [0xF1, 0x00]))).1.txData_.error = ERROR_NONE := by
    show (HAL_UART_RxCpltCallback true _).1.txData_.error = ERROR_NONE
    rw [rxCplt_accepted _ 0xF1 0x00 (crc8 [0xF1, 0x00]) rfl rfl (by decide) rfl,
      dispatch_error_reset 0xF1 0x00 _ _ (by decide)]
  ⟨by decide, hc,
   (C15_error_not_cleared stm32HalUartError (Handler.rxCpltCallback true)
      (frameState sampleTx 0xF1 0x00 (crc8 [0xF1, 0x00])) (by decide) hc).2.2.2.2⟩

/-! ## The tick counter -/

set_option maxRecDepth 100000 in
/-- C16 fails on the code. After `shortBudgetTrace` (start, first byte, five
ticks, remainder of a valid poll, first byte of the next frame before any
tick) the last event has switched the cursor from waiting to in-progress while
the tick counter is 5, not 0, and the fifth tick after that first byte, not
the tenth, aborts the reception of the new frame. -/
theorem C16_short_budget :
    (run stm32HalUartError shortBudgetTrace.dropLast initState).1.isWaitFirstByte_ = true
    ∧ (run stm32HalUartError shortBudgetTrace.dropLast initState).1.timeOut = 5
    ∧ (run stm32HalUartError shortBudgetTrace initState).1.isWaitFirstByte_ = false
    ∧ (run stm32HalUartError shortBudgetTrace initState).1.timeOut = 5
    ∧ (ticks 4 (run stm32HalUartError shortBudgetTrace initState).1).2 = []
    ∧ (ticks 5 (run stm32HalUartError shortBudgetTrace initState).1).2
        = [HalCall.UART_AbortReceive_IT, HalCall.UART_Receive_IT 0 1]
    ∧ (ticks 5 (run stm32HalUartError shortBudgetTrace initState).1).1.isWaitFirstByte_
        = true := by
  decide

/-- C19. In every reachable state the tick counter is at most
`RECEPTION_TIME - 1` = 9, so `timeOut++` does not wrap modulo 256; the counter
is at most 9 again after the next tick, and it is 0 after a tick taken while
waiting for the first byte and after a tick that aborts the reception. -/
theorem C19_counter_bounded (hal : HalUartError) (s : State) (hreach : Reachable hal s) :
    s.timeOut ≤ RECEPTION_TIME - 1
    ∧ s.timeOut ≤ 9
    ∧ (s.timeOut + 1) % 256 = s.timeOut + 1
    ∧ (checkTimeOutReception s).1.timeOut ≤ 9
    ∧ (s.isWaitFirstByte_ = true → (checkTimeOutReception s).1.timeOut = 0)
    ∧ (HalCall.UART_AbortReceive_IT ∈ (checkTimeOutReception s).2 →
        (checkTimeOutReception s).1.timeOut = 0) := by
  obtain ⟨ht, -⟩ := reachable_inv hal s hreach
  obtain ⟨ht', -⟩ := checkTimeOutReception_inv s (reachable_inv hal s hreach)
  unfold RECEPTION_TIME at ht ht' ⊢
  refine ⟨by omega, by omega, by omega, by omega, ?_, ?_⟩
  · intro hw
    simp [checkTimeOutReception, hw]
  · unfold checkTimeOutReception
    dsimp only
    split_ifs
    · intro h; simp at h
    · intro _; rfl
    · intro h; simp at h

/-- C19 on the state after a first byte and nine ticks: the counter is 9, and
the tenth tick, which aborts, leaves it at 0. -/
theorem C19_counter_bounded_witness :
    (run stm32HalUartError
        (Event.startReceive :: Event.rxFirstByte 0x11 :: List.replicate 9 Event.tick)
        initState).1.timeOut = 9
    ∧ (checkTimeOutReception
        (run stm32HalUartError
          (Event.startReceive :: Event.rxFirstByte 0x11 :: List.replicate 9 Event.tick)
          initState).1).1.timeOut = 0 :=
  ⟨by decide,
   (C19_counter_bounded stm32HalUartError
      (run stm32HalUartError
        (Event.startReceive :: Event.rxFirstByte 0x11 :: List.replicate 9 Event.tick)
        initState).1 ⟨_, rfl⟩).2.2.2.2.2 (by decide)⟩

/-! ## Mirror bits, output lines and telemetry -/

/-- HAL calls other than pin writes leave the LED lines alone. -/
theorem Pins.after_of_no_write (calls : List HalCall) :
    ∀ p : Pins, (∀ c ∈ calls, c.isWritePin = false) → p.after calls = p := by
  induction calls with
  | nil => intro p _; rfl
  | cons c cs ih =>
    intro p h
    have hc : c.isWritePin = false := h c (List.mem_cons_self _ _)
    have hw : p.write c = p := by
      cases c <;> first | rfl | simp [HalCall.isWritePin] at hc
    have := ih p (fun c' hc' => h c' (List.mem_cons_of_mem _ hc'))
    simpa [Pins.after, hw] using this

/-- The tick leaves the response record alone and makes no pin write. -/
theorem checkTimeOutReception_frame (s : State) :
    (checkTimeOutReception s).1.txData_ = s.txData_
    ∧ (∀ c ∈ (checkTimeOutReception s).2, c.isTransmit = false ∧ c.isWritePin = false) := by
  unfold checkTimeOutReception
  dsimp only
  split_ifs <;> simp [uartStartReceive, HalCall.isTransmit, HalCall.isWritePin]

/-- What one entry-point call does to the LED mirror bits and lines: either it
writes no LED line and no mirror bit, or it writes each of the four lines once
and each mirror bit with the negation of the level written. -/
theorem exec_leds (hal : HalUartError) (h : Handler) (s : State) :
    ((∀ c ∈ (exec hal h s).2, c.isWritePin = false)
      ∧ (exec hal h s).1.txData_.led1State = s.txData_.led1State
      ∧ (exec hal h s).1.txData_.led2State = s.txData_.led2State
      ∧ (exec hal h s).1.txData_.led3State = s.txData_.led3State
      ∧ (exec hal h s).1.txData_.led4State = s.txData_.led4State)
    ∨ (∃ (l1 l2 l3 l4 : Bool) (resp : List Nat),
        (exec hal h s).2
          = [HalCall.GPIO_WritePin 1 (!l1), HalCall.GPIO_WritePin 2 (!l2),
             HalCall.GPIO_WritePin 3 (!l3), HalCall.GPIO_WritePin 4 (!l4),
             HalCall.UART_Transmit_IT resp, HalCall.UART_Receive_IT 0 1]
        ∧ (exec hal h s).1.txData_.led1State = l1
        ∧ (exec hal h s).1.txData_.led2State = l2
        ∧ (exec hal h s).1.txData_.led3State = l3
        ∧ (exec hal h s).1.txData_.led4State = l4) := by
  cases h with
  | startReceive =>
    left; simp [exec, uartStartReceive, HalCall.isWritePin]
  | timeOutReception =>
    left
    obtain ⟨h1, h2⟩ := checkTimeOutReception_frame s
    simp only [exec]
    refine ⟨fun c hc => (h2 c hc).2, ?_, ?_, ?_, ?_⟩ <;> rw [h1]
  | errorCallback isHuart1 error =>
    left
    obtain ⟨h1, -, h3⟩ := errorCallback_frame hal isHuart1 error s
    simp only [exec]
    refine ⟨fun c hc => (h3 c hc).2, ?_, ?_, ?_, ?_⟩ <;> rw [h1]
  | rxCpltCallback isHuart1 =>
    simp only [exec]
    rcases rxCplt_cases isHuart1 s with ⟨hsame, hcalls⟩ | ⟨-, -, -, -, hpost, hc⟩
    · left
      rw [hsame]
      exact ⟨fun c hc => (hcalls c hc).2, rfl, rfl, rfl, rfl⟩
    · rw [hpost, hc]
      rcases dispatch_cases s.rxBuf s.txData_ with
        ⟨-, hd⟩ | ⟨-, hd⟩ | ⟨-, hd⟩ | ⟨-, -, -, hd⟩
      · left; rw [hd]; simp [HalCall.isWritePin]
      · right; rw [hd]
        exact ⟨_, _, _, _, _, rfl, rfl, rfl, rfl, rfl⟩
      · left; rw [hd]; simp [HalCall.isWritePin]
      · left; rw [hd]; simp [HalCall.isWritePin]
  | temperature t => left; simp [exec, setTemperature]
  | voltage v => left; simp [exec, setVoltage]
  | button1 b => left; simp [exec, setButton1State]

/-- C17. With the four LED lines as state, "each line is at the negation of its
mirror bit" is preserved by every entry-point call, from every state: a call
either writes no LED line and no mirror bit, or writes each of the four lines
once and, in the same step, each mirror bit with the negation of the level
written. -/
theorem C17_mirror_agrees (hal : HalUartError) (h : Handler) (s : State) (p : Pins)
    (hagree : MirrorAgrees p s.txData_) :
    MirrorAgrees (p.after (exec hal h s).2) (exec hal h s).1.txData_
    ∧ (((∀ c ∈ (exec hal h s).2, c.isWritePin = false)
          ∧ p.after (exec hal h s).2 = p
          ∧ (exec hal h s).1.txData_.led1State = s.txData_.led1State
          ∧ (exec hal h s).1.txData_.led2State = s.txData_.led2State
          ∧ (exec hal h s).1.txData_.led3State = s.txData_.led3State
          ∧ (exec hal h s).1.txData_.led4State = s.txData_.led4State)
        ∨ (∃ l1 l2 l3 l4 : Bool,
            (exec hal h s).2.filter HalCall.isWritePin
              = [HalCall.GPIO_WritePin 1 (!l1), HalCall.GPIO_WritePin 2 (!l2),
                 HalCall.GPIO_WritePin 3 (!l3), HalCall.GPIO_WritePin 4 (!l4)]
            ∧ (exec hal h s).1.txData_.led1State = l1
            ∧ (exec hal h s).1.txData_.led2State = l2
            ∧ (exec hal h s).1.txData_.led3State = l3
            ∧ (exec hal h s).1.txData_.led4State = l4)) := by
  rcases exec_leds hal h s with ⟨hno, e1, e2, e3, e4⟩ | ⟨l1, l2, l3, l4, resp, hc, e1, e2, e3, e4⟩
  · have hp := Pins.after_of_no_write _ p hno
    refine ⟨?_, Or.inl ⟨hno, hp, e1, e2, e3, e4⟩⟩
    rw [hp]
    unfold MirrorAgrees at hagree ⊢
    rw [e1, e2, e3, e4]
    exact hagree
  · refine ⟨?_, Or.inr ⟨l1, l2, l3, l4, ?_, e1, e2, e3, e4⟩⟩
    · rw [hc]
      unfold MirrorAgrees
      rw [e1, e2, e3, e4]
      simp [Pins.after, Pins.write]
    · rw [hc]
      simp [List.filter, HalCall.isWritePin]

/-- C17 on the frame `{0x21, 0x05, crc8}` (LED1 and LED3 on) from lines that
agree with `sampleTx` (only LED2 on): the lines after the call agree with the
mirror bits after the call. -/
theorem C17_mirror_agrees_witness :
    MirrorAgrees { led1 := true, led2 := false, led3 := true, led4 := true } sampleTx
    ∧ MirrorAgrees
        (Pins.after { led1 := true, led2 := false, led3 := true, led4 := true }
          (exec stm32HalUartError (Handler.rxCpltCallback true)
            (frameState sampleTx 0x21 0x05 (crc8 [0x21, 0x05]))).2)
        (exec stm32HalUartError (Handler.rxCpltCallback true)
          (frameState sampleTx 0x21 0x05 (crc8 [0x21, 0x05]))).1.txData_ :=
  ⟨⟨rfl, rfl, rfl, rfl⟩,
   (C17_mirror_agrees stm32HalUartError (Handler.rxCpltCallback true)
      (frameState sampleTx 0x21 0x05 (crc8 [0x21, 0x05]))
      { led1 := true, led2 := false, led3 := true, led4 := true }
      ⟨rfl, rfl, rfl, rfl⟩).1⟩

/-- C18. Staged telemetry is read-only to the core: `uartStartReceive`,
`checkTimeOutReception`, `HAL_UART_ErrorCallback` and `HAL_UART_RxCpltCallback`
leave temperature, voltage and button state as they were, from every state, for
every UART, error value, phase and buffer. Each of the three setters replaces
its own field and nothing else in the state, and makes no HAL call. -/
theorem C18_telemetry_read_only (hal : HalUartError) (s : State) :
    (∀ h : Handler, h.isCore = true →
        (exec hal h s).1.txData_.temperature = s.txData_.temperature
        ∧ (exec hal h s).1.txData_.voltage = s.txData_.voltage
        ∧ (exec hal h s).1.txData_.button1State = s.txData_.button1State)
    ∧ (∀ t : Int,
        exec hal (Handler.temperature t) s
          = ({ s with txData_ := { s.txData_ with temperature := t } }, []))
    ∧ (∀ v : Nat,
        exec hal (Handler.voltage v) s
          = ({ s with txData_ := { s.txData_ with voltage := v } }, []))
    ∧ (∀ b : Bool,
        exec hal (Handler.button1 b) s
          = ({ s with txData_ := { s.txData_ with button1State := b } }, [])) := by
  refine ⟨?_, fun _ => rfl, fun _ => rfl, fun _ => rfl⟩
  intro h hcore
  cases h with
  | startReceive => exact ⟨rfl, rfl, rfl⟩
  | timeOutReception =>
    simp only [exec, (checkTimeOutReception_frame s).1]
    exact ⟨trivial, trivial, trivial⟩
  | errorCallback isHuart1 error =>
    obtain ⟨h1, -, -⟩ := errorCallback_frame hal isHuart1 error s
    simp only [exec]
    refine ⟨?_, ?_, ?_⟩ <;> rw [h1]
  | rxCpltCallback isHuart1 =>
    simp only [exec]
    rcases rxCplt_cases isHuart1 s with ⟨hsame, -⟩ | ⟨-, -, -, -, hpost, -⟩
    · refine ⟨?_, ?_, ?_⟩ <;> rw [hsame]
    · obtain ⟨-, ht, hv, hb, -, -⟩ := dispatch_frame s.rxBuf s.txData_
      rw [hpost]
      exact ⟨ht, hv, hb⟩
  | temperature t => simp [Handler.isCore] at hcore
  | voltage v => simp [Handler.isCore] at hcore
  | button1 b => simp [Handler.isCore] at hcore

/-! ## Single-bit corruption -/

set_option maxRecDepth 100000 in
/-- On bytes, `crc8RoundInv` undoes one round of `crc8`. -/
theorem crc8RoundInv_crc8Round : ∀ x, x < 256 → crc8RoundInv (crc8Round x) = x := by
  decide

theorem crc8Round_lt (x : Nat) : crc8Round x < 256 := by
  unfold crc8Round
  split_ifs <;> exact Nat.mod_lt _ (by decide)

theorem crc8Round_iterate_lt (n x : Nat) (hx : x < 256) : crc8Round^[n] x < 256 := by
  induction n generalizing x with
  | zero => exact hx
  | succ n ih =>
    rw [Function.iterate_succ_apply]
    exact ih _ (crc8Round_lt x)

/-- The rounds of `crc8` are injective on bytes. -/
theorem crc8Round_iterate_inj (n : Nat) :
    ∀ x y, x < 256 → y < 256 → crc8Round^[n] x = crc8Round^[n] y → x = y := by
  induction n with
  | zero => intro x y _ _ h; exact h
  | succ n ih =>
    intro x y hx hy h
    rw [Function.iterate_succ_apply, Function.iterate_succ_apply] at h
    have h1 := ih _ _ (crc8Round_lt x) (crc8Round_lt y) h
    have h2 := congrArg crc8RoundInv h1
    rwa [crc8RoundInv_crc8Round x hx, crc8RoundInv_crc8Round y hy] at h2

/-- Two runs of one byte through `crc8` that end alike started alike. -/
theorem crc8Byte_inj (c b c' b' : Nat) (h : crc8Byte c b = crc8Byte c' b') :
    (c ^^^ b) % 256 = (c' ^^^ b') % 256 :=
  crc8Round_iterate_inj 8 _ _ (Nat.mod_lt _ (by decide)) (Nat.mod_lt _ (by decide)) h

theorem crc8Byte_lt (c b : Nat) : crc8Byte c b < 256 :=
  crc8Round_iterate_lt 8 _ (Nat.mod_lt _ (by decide))

theorem xor_two_pow_ne (x k : Nat) : x ^^^ 2 ^ k ≠ x := by
  intro h
  have h0 : x ^^^ 2 ^ k = x ^^^ 0 := by rw [Nat.xor_zero]; exact h
  have := Nat.xor_right_inj.mp h0
  exact absurd this (by positivity)

/-- Flipping one of the low eight bits changes the low byte. -/
theorem xor_two_pow_mod_ne (x k : Nat) (hk : k < 8) : (x ^^^ 2 ^ k) % 256 ≠ x % 256 := by
  rw [xor_mod_256]
  have h2 : 2 ^ k % 256 = 2 ^ k := by
    apply Nat.mod_eq_of_lt
    calc 2 ^ k < 2 ^ 8 := Nat.pow_lt_pow_right (by decide) hk
      _ = 256 := by decide
  rw [h2]
  exact xor_two_pow_ne _ k

/-- A bit flipped in the first byte changes `crc8` of the two bytes. -/
theorem crc8_flip_first (b0 b1 k : Nat) (hk : k < 8) :
    crc8 [b0 ^^^ 2 ^ k, b1] ≠ crc8 [b0, b1] := by
  intro h
  simp only [crc8, crc8Loop] at h
  have h1 := crc8Byte_inj _ _ _ _ h
  rw [xor_mod_256, xor_mod_256 (crc8Byte 255 b0)] at h1
  have h2 := Nat.xor_left_inj.mp h1
  rw [Nat.mod_eq_of_lt (crc8Byte_lt _ _), Nat.mod_eq_of_lt (crc8Byte_lt _ _)] at h2
  have h3 := crc8Byte_inj _ _ _ _ h2
  rw [← Nat.xor_assoc] at h3
  exact xor_two_pow_mod_ne _ k hk h3

/-- A bit flipped in the second byte changes `crc8` of the two bytes. -/
theorem crc8_flip_second (b0 b1 k : Nat) (hk : k < 8) :
    crc8 [b0, b1 ^^^ 2 ^ k] ≠ crc8 [b0, b1] := by
  intro h
  simp only [crc8, crc8Loop] at h
  have h1 := crc8Byte_inj _ _ _ _ h
  rw [← Nat.xor_assoc] at h1
  exact xor_two_pow_mod_ne _ k hk h1

/-- The request with one of its 24 bits flipped, byte by byte. -/
theorem flipBit_cases (b0 b1 b2 k : Nat) (hk : k < 24) :
    (k < 8 ∧ flipBit k [b0, b1, b2] = [b0 ^^^ 2 ^ k, b1, b2])
    ∨ (8 ≤ k ∧ k < 16 ∧ flipBit k [b0, b1, b2] = [b0, b1 ^^^ 2 ^ (k - 8), b2])
    ∨ (16 ≤ k ∧ flipBit k [b0, b1, b2] = [b0, b1, b2 ^^^ 2 ^ (k - 16)]) := by
  unfold flipBit
  rcases Nat.lt_or_ge k 8 with h8 | h8
  · left
    have hq : k / 8 = 0 := by omega
    have hr : k % 8 = k := by omega
    simp [hq, hr, h8]
  · rcases Nat.lt_or_ge k 16 with h16 | h16
    · right; left
      have hq : k / 8 = 1 := by omega
      have hr : k % 8 = k - 8 := by omega
      simp [hq, hr, h8, h16]
    · right; right
      have hq : k / 8 = 2 := by omega
      have hr : k % 8 = k - 16 := by omega
      simp [hq, hr, h16]

/-- C20. Take a request the validation accepts (address nibble 1, byte 2 = crc8
of bytes 0..1) and flip any one of its 24 bits: the result fails the address
check or the crc8 check, so in the remainder phase the handler only restarts
the receiver: nothing is transmitted, no LED output is written and the response
record is unchanged. -/
theorem C20_single_bit_flip_rejected (s : State) (b0 b1 b2 k : Nat)
    (_haddr : b0 % 16 = DEVICE_ADDRESS) (hcrc : b2 = crc8 [b0, b1]) (hk : k < 24)
    (hphase : s.isWaitFirstByte_ = false) (hbuf : s.rxBuf = flipBit k [b0, b1, b2]) :
    (rxAddress s.rxBuf ≠ DEVICE_ADDRESS
      ∨ rxCrc s.rxBuf ≠ crc8 (s.rxBuf.take (sizeofRxData - sizeofRxCrc)))
    ∧ (HAL_UART_RxCpltCallback true s).2 = [HalCall.UART_Receive_IT 0 1]
    ∧ (∀ c ∈ (HAL_UART_RxCpltCallback true s).2,
        c.isTransmit = false ∧ c.isWritePin = false)
    ∧ (HAL_UART_RxCpltCallback true s).1.txData_ = s.txData_
    ∧ HAL_UART_RxCpltCallback true s = uartStartReceive s := by
  have key : ∀ x0 x1 x2 : Nat, s.rxBuf = [x0, x1, x2] → x2 ≠ crc8 [x0, x1] →
      (rxAddress s.rxBuf ≠ DEVICE_ADDRESS
        ∨ rxCrc s.rxBuf ≠ crc8 (s.rxBuf.take (sizeofRxData - sizeofRxCrc)))
      ∧ (HAL_UART_RxCpltCallback true s).2 = [HalCall.UART_Receive_IT 0 1]
      ∧ (∀ c ∈ (HAL_UART_RxCpltCallback true s).2,
          c.isTransmit = false ∧ c.isWritePin = false)
      ∧ (HAL_UART_RxCpltCallback true s).1.txData_ = s.txData_
      ∧ HAL_UART_RxCpltCallback true s = uartStartReceive s := by
    intro x0 x1 x2 hx hne
    have hrej := rxCplt_rejected s x0 x1 x2 hphase hx (Or.inr hne)
    refine ⟨Or.inr ?_, ?_, ?_, ?_, hrej⟩
    · rw [hx]; simpa [rxCrc, sizeofRxData, sizeofRxCrc] using hne
    · rw [hrej, uartStartReceive_eq s x0 x1 x2 hx]
    · rw [hrej, uartStartReceive_eq s x0 x1 x2 hx]
      simp [HalCall.isTransmit, HalCall.isWritePin]
    · rw [hrej]; rfl
  rcases flipBit_cases b0 b1 b2 k hk with ⟨h8, hf⟩ | ⟨-, h16, hf⟩ | ⟨-, hf⟩
  · refine key _ _ _ (hbuf.trans hf) ?_
    rw [hcrc]
    exact (crc8_flip_first b0 b1 k h8).symm
  · refine key _ _ _ (hbuf.trans hf) ?_
    rw [hcrc]
    exact (crc8_flip_second b0 b1 (k - 8) (by omega)).symm
  · refine key _ _ _ (hbuf.trans hf) ?_
    rw [hcrc]
    exact xor_two_pow_ne _ _

/-- C20 on the valid poll `{0x11, 0x00, crc8}` with bit 4 (the lowest command
bit) flipped, which gives `{0x01, 0x00, crc8([0x11, 0x00])}`: only the receiver
restart is issued. -/
theorem C20_single_bit_flip_rejected_witness :
    (0x11 % 16 = DEVICE_ADDRESS ∧ 4 < 24
      ∧ flipBit 4 [0x11, 0x00, crc8 [0x11, 0x00]] = [0x01, 0x00, crc8 [0x11, 0x00]])
    ∧ (HAL_UART_RxCpltCallback true
        (frameState sampleTx 0x01 0x00 (crc8 [0x11, 0x00]))).2
      = [HalCall.UART_Receive_IT 0 1] :=
  ⟨by decide,
   (C20_single_bit_flip_rejected (frameState sampleTx 0x01 0x00 (crc8 [0x11, 0x00]))
      0x11 0x00 (crc8 [0x11, 0x00]) 4 (by decide) rfl (by decide) rfl (by decide)).2.1⟩

end ModbusMy
